import Mathlib

/-!
Verification of the q-Kangaroo exact q-series arithmetic core against its
specification.  The repository ships the Python binding layer, its
integration tests and an installation checker; the native core crate
(series arithmetic, generators, analyzer, expression store) is not part of
the source tree, so those parts are modelled directly from the
specification text and every such definition is marked accordingly.
Series are truncated power series over ℚ, represented as coefficient
lists whose length is the truncation order.
-/

namespace Series

/-- Coefficient access for a series represented as its coefficient list:
indices beyond the window read as`0`. -/
def coeff (a : List ℚ) (k : ℕ) : ℚ := a.getD k 0

/-- Modelled from the spec: the missing core crate's `add(a,b)` is the
elementwise sum of coefficients truncated to `min(order_a, order_b)`. -/
def add (a b : List ℚ) : List ℚ := List.zipWith (· + ·) a b

/-- Cauchy-product coefficient `∑ i ≤ k, a i * b (k-i)` of two series. -/
def mulCoeff (a b : List ℚ) (k : ℕ) : ℚ :=
  ∑ i ∈ Finset.range (k + 1), coeff a i * coeff b (k - i)

/-- Modelled from the spec: the missing core crate's `multiply(a,b)` is the
Cauchy product truncated to `min(order_a, order_b)`. -/
def multiply (a b : List ℚ) : List ℚ :=
  (List.range (min a.length b.length)).map (mulCoeff a b)

/-- First `n` coefficients of the multiplicative inverse of `a`, built by
the spec's recurrence `inv[0] = 1/a[0]`,
`inv[k] = -(1/a[0]) · ∑ i ∈ [1,k], a[i]·inv[k-i]`. -/
def invertList (a : List ℚ) : ℕ → List ℚ
  | 0 => []
  | n + 1 =>
    let prev := invertList a n
    prev ++ [if n = 0 then (coeff a 0)⁻¹
             else -(coeff a 0)⁻¹ *
               ∑ i ∈ Finset.range n, coeff a (i + 1) * prev.getD (n - 1 - i) 0]

/-- The inverse series of `a` (meaningful when `a[0] ≠ 0`), one coefficient
per coefficient of `a`. -/
def invertTotal (a : List ℚ) : List ℚ := invertList a a.length

/-- Modelled from the spec: the missing core crate's `invert(a)` requires
`a[0] ≠ 0` and fails with DivisionByZero (here `none`) when `a[0] = 0`;
otherwise it returns the series built from the inverse recurrence. -/
def invert (a : List ℚ) : Option (List ℚ) :=
  if coeff a 0 = 0 then none else some (invertTotal a)

/-- The unit series `[1, 0, …, 0]` of truncation order `n`. -/
def one (n : ℕ) : List ℚ := (List.range n).map (fun k => if k = 0 then 1 else 0)

/-- Coefficient `k` of the inverse series, as produced by the recurrence. -/
def invc (a : List ℚ) (k : ℕ) : ℚ := (invertList a (k + 1)).getD k 0

end Series

/-- Embed a coefficient list as a formal power series over ℚ; coefficients
beyond the truncation window are zero. -/
def toPS (a : List ℚ) : PowerSeries ℚ := PowerSeries.mk (Series.coeff a)

/-- Modelled from the spec: one step of Euler's pentagonal-number recurrence.
Given `ps = [p(0), …, p(n-1)]` this computes
`p(n) = ∑_{j ≥ 1} (-1)^(j+1) (p(n - j(3j-1)/2) + p(n - j(3j+1)/2))`,
terms with negative index dropped. -/
def pentStep (ps : List ℤ) (n : ℕ) : ℤ :=
  (List.range n).foldl
    (fun acc j0 =>
      let j := j0 + 1
      let g1 := j * (3 * j - 1) / 2
      let g2 := j * (3 * j + 1) / 2
      let s : ℤ := if j % 2 = 1 then 1 else -1
      acc + (if g1 ≤ n then s * ps.getD (n - g1) 0 else 0)
          + (if g2 ≤ n then s * ps.getD (n - g2) 0 else 0))
    0

/-- List `[p(0), …, p(order-1)]` computed by the pentagonal recurrence. -/
def partList : ℕ → List ℤ
  | 0 => []
  | n + 1 => partList n ++ [if n = 0 then 1 else pentStep (partList n) n]

/-- Modelled from the spec: the missing core crate's `partition_gf(order)`,
the partition generating function to the given truncation order, computed
via Euler's pentagonal-number recurrence. -/
def partition_gf (order : ℕ) : List ℚ := (partList order).map Int.cast

/-- Modelled from the spec and `check_install.py`: `partition_count(n)` is
the n-th partition number, read off the pentagonal recurrence. -/
def partition_count (n : ℕ) : ℤ := (partList (n + 1)).getD n 0

/-- Reference row update for direct partition counting: from the row of
counts of partitions with all parts < k to the row with all parts ≤ k
(`new[m] = prev[m] + new[m-k]`). -/
def partRow (k : ℕ) (prev : List ℕ) : List ℕ :=
  (List.range prev.length).foldl
    (fun acc m => acc ++ [prev.getD m 0 + if k ≤ m then acc.getD (m - k) 0 else 0]) []

/-- Reference table after `k` row updates: entry `m` counts the partitions
of `m` into parts of size at most `k`. -/
def partitionTableAux (N : ℕ) : ℕ → List ℕ
  | 0 => 1 :: List.replicate N 0
  | k + 1 => partRow (k + 1) (partitionTableAux N k)

/-- Reference partition numbers `[p(0), …, p(N)]` by direct counting of
partitions (dynamic programming over the largest allowed part), written
independently of the pentagonal recurrence. -/
def partitionTable (N : ℕ) : List ℕ := partitionTableAux N N

/-- Modelled from the spec: the missing core crate's `theta3(order)`, the
Jacobi theta series `θ₃(q) = ∑ n ∈ ℤ, q^(n²)` computed as a bilateral term
sum stopping once `|n| > √order`, truncated to the window. -/
def theta3 (order : ℕ) : List ℚ :=
  (List.range order).map (fun (k : ℕ) =>
    ∑ n ∈ Finset.Icc (-(Nat.sqrt order : ℤ)) (Nat.sqrt order),
      if n * n = (k : ℤ) then (1 : ℚ) else 0)

namespace Series

/-- Truncated product of a list of series of order `N`. -/
def prodSeries (N : ℕ) (fs : List (List ℚ)) : List ℚ := fs.foldl multiply (one N)

end Series

/-- Series of the polynomial `1 - q^e` at truncation order `N` (used with
`e ≥ 1`). -/
def pochFactor (N e : ℕ) : List ℚ :=
  (List.range N).map (fun (k : ℕ) => if k = 0 then 1 else if k = e then -1 else 0)

/-- Series of the polynomial `1 + q^e` at truncation order `N` (used with
`e ≥ 1`). -/
def distinctFactor (N e : ℕ) : List ℚ :=
  (List.range N).map (fun (k : ℕ) => if k = 0 then 1 else if k = e then 1 else 0)

/-- Modelled from the spec: the missing core crate's `etaq(b, t, order)`,
the eta-type Pochhammer product `(q^b; q^t)_∞ = ∏_{j ≥ 0} (1 - q^(b+jt))`
truncated at `order`; factors whose exponent falls outside the window are
skipped. -/
def etaq (b t order : ℕ) : List ℚ :=
  Series.prodSeries order ((List.range order).map
    (fun j => if b + j * t < order then pochFactor order (b + j * t) else Series.one order))

/-- Modelled from the spec: the missing core crate's
`distinct_parts_gf(order) = ∏_{n ≥ 1} (1 + q^n)` truncated at `order`. -/
def distinct_parts_gf (order : ℕ) : List ℚ :=
  Series.prodSeries order ((List.range order).map
    (fun n => if 0 < n then distinctFactor order n else Series.one order))

/-- Modelled from the spec: the missing core crate's
`odd_parts_gf(order) = ∏_{n ≥ 1 odd} 1/(1 - q^n)` truncated at `order`,
computed by inverting the odd Pochhammer product. -/
def odd_parts_gf (order : ℕ) : List ℚ :=
  Series.invertTotal (Series.prodSeries order ((List.range order).map
    (fun n => if n % 2 = 1 then pochFactor order n else Series.one order)))

/-- Window equivalence: list `a` has order `N` and agrees with the power
series `φ` on every coefficient below `N`. -/
def WEq (N : ℕ) (a : List ℚ) (φ : PowerSeries ℚ) : Prop :=
  a.length = N ∧ ∀ k, k < N → Series.coeff a k = PowerSeries.coeff ℚ k φ

/-- Falling product `a(a-1)⋯(a-j+1)` of a rational. -/
def descPoch (a : ℚ) : ℕ → ℚ
  | 0 => 1
  | j + 1 => descPoch a j * (a - j)

/-- Generalized rational binomial coefficient `C(a, j)`. -/
def ratBinom (a : ℚ) (j : ℕ) : ℚ := descPoch a j / (Nat.factorial j : ℚ)

/-- Series of `(1 - q^n)^a` for a rational exponent `a`, via the binomial
series `∑ j, C(a,j)·(-q^n)^j`, truncated at order `N` (used with `n ≥ 1`). -/
def ratPow (N n : ℕ) (a : ℚ) : List ℚ :=
  (List.range N).map (fun (k : ℕ) =>
    if n ∣ k then ratBinom a (k / n) * (-1) ^ (k / n) else 0)

/-- Modelled from the spec: the loop of Andrews' `prodmake` algorithm.  The
residual's coefficient of `q^n` determines the exponent `a_n`, then the
factor `(1-q^n)^(-a_n)` is divided out (the residual is multiplied by
`(1-q^n)^(a_n)`) before continuing.  Returns the exponents
`[a_n, …, a_(n+steps-1)]` and the final residual. -/
def prodmakeAux : List ℚ → ℕ → ℕ → List ℚ × List ℚ
  | res, _, 0 => ([], res)
  | res, n, steps + 1 =>
    let a := Series.coeff res n
    let rest := prodmakeAux (Series.multiply res (ratPow res.length n a)) (n + 1) steps
    (a :: rest.1, rest.2)

/-- Modelled from the spec: the missing core crate's
`prodmake(series, max_n)` (Andrews' algorithm).  Requires constant term 1,
failing explicitly otherwise; returns the exponents `a_1 … a_max_n` of the
product form `∏ (1-q^n)^(-a_n)` together with the residual. -/
def prodmake (f : List ℚ) (maxN : ℕ) : Option (List ℚ × List ℚ) :=
  if Series.coeff f 0 = 1 then some (prodmakeAux f 1 maxN) else none

/-- Parameter wrapper: `etaq` read from a positional integer tuple. -/
def etaqGen (ps : List ℤ) (order : ℕ) : List ℚ :=
  etaq (ps.getD 0 1).toNat (ps.getD 1 1).toNat order

/-- Parameter wrapper: `theta3` takes no tuple parameters. -/
def theta3Gen (_ : List ℤ) (order : ℕ) : List ℚ := theta3 order

/-- Parameter wrapper: `partition_gf` takes no tuple parameters. -/
def partitionGen (_ : List ℤ) (order : ℕ) : List ℚ := partition_gf order

/-- Parameter wrapper: `distinct_parts_gf` takes no tuple parameters. -/
def distinctGen (_ : List ℤ) (order : ℕ) : List ℚ := distinct_parts_gf order

/-- Parameter wrapper: `odd_parts_gf` takes no tuple parameters. -/
def oddGen (_ : List ℤ) (order : ℕ) : List ℚ := odd_parts_gf order

/-- Modelled from the spec: name dispatch of the batch interface, over the
generators modelled in this file (the binding layer lists further names
whose cores are equally absent from the source tree). -/
def lookupGenerator (name : String) : Option (List ℤ → ℕ → List ℚ) :=
  if name = "etaq" then some etaqGen
  else if name = "theta3" then some theta3Gen
  else if name = "partition_gf" then some partitionGen
  else if name = "distinct_parts_gf" then some distinctGen
  else if name = "odd_parts_gf" then some oddGen
  else none

/-- Modelled from the spec: `QSession.generate(name, params, order)` is the
single direct generator call. -/
def generate (gen : List ℤ → ℕ → List ℚ) (params : List ℤ) (order : ℕ) : List ℚ :=
  gen params order

/-- Modelled from the spec: `QSession.batch_generate` is pure orchestration
with no independent semantics: one `(params, series)` result per input
tuple, in input order, each equal to the direct generator call. -/
def batch_generate (gen : List ℤ → ℕ → List ℚ) (ps : List (List ℤ)) (order : ℕ) :
    List (List ℤ × List ℚ) :=
  ps.map (fun p => (p, gen p order))

/-- Modelled from the spec: a hash-consed term node; children are referred
to by opaque ids (indices into the session store). -/
inductive Node where
  | Symbol (name : String)
  | IntConst (value : ℤ)
  | RatConst (value : ℚ)
  | Power (base exp : ℕ)
  | Sum (children : List ℕ)
  | Product (children : List ℕ)
deriving DecidableEq

/-- Index of the first structurally equal node in the store. -/
def idxOfNode (n : Node) : List Node → Option ℕ
  | [] => none
  | m :: rest => if m = n then some 0 else (idxOfNode n rest).map (· + 1)

/-- Modelled from the spec: interning into the hash-consing store — reuse
the existing id of a structurally identical node, else append the node
under a fresh id. -/
def intern (n : Node) (s : List Node) : ℕ × List Node :=
  match idxOfNode n s with
  | some i => (i, s)
  | none => (s.length, s ++ [n])

/-- Whitespace splitter: accumulates the current word (reversed) and emits
words between runs of whitespace, dropping empty pieces as Python's
`str.split()` does. -/
def splitNamesAux : List Char → List Char → List String
  | [], cur => if cur.isEmpty then [] else [String.mk cur.reverse]
  | c :: rest, cur =>
    if c.isWhitespace then
      if cur.isEmpty then splitNamesAux rest []
      else String.mk cur.reverse :: splitNamesAux rest []
    else splitNamesAux rest (c :: cur)

/-- The whitespace-separated names of a string, in order. -/
def parseNames (names : String) : List String := splitNamesAux names.toList []

/-- Session state: the hash-consing store (spec: ExprStore plus symbol
table, owned by the session). -/
structure QSession where
  store : List Node

/-- A fresh session with an empty store. -/
def QSession.empty : QSession := ⟨[]⟩

/-- One interning step of `QSession.symbols`: intern the Symbol node for
one name and record its handle. -/
def internSymbolsStep (acc : List ℕ × List Node) (nm : String) : List ℕ × List Node :=
  (acc.1 ++ [(intern (Node.Symbol nm) acc.2).1], (intern (Node.Symbol nm) acc.2).2)

/-- Modelled from the spec: the native `QSession.symbols(names)` interns one
Symbol node per whitespace-separated name and returns the handles in name
order. -/
def QSession.symbols (s : QSession) (names : String) : List ℕ × QSession :=
  (((parseNames names).foldl internSymbolsStep ([], s.store)).1,
   ⟨((parseNames names).foldl internSymbolsStep ([], s.store)).2⟩)

/-- Return shape of the binding-layer `symbols` helper: a single expression
or a tuple of expressions. -/
inductive SymbolsResult where
  | single (e : ℕ)
  | tuple (es : List ℕ)
deriving DecidableEq

/-- The session to use: the given one, or a fresh one when none is given
(translated from `symbols` in `q_kangaroo/__init__.py`). -/
def sessionOrFresh (session : Option QSession) : QSession :=
  match session with
  | none => QSession.empty
  | some s0 => s0

/-- The binding-layer helper `symbols(names, session=None)`, translated
from `q_kangaroo/__init__.py`: a single QExpr for exactly one name, a tuple
otherwise. -/
def symbols (names : String) (session : Option QSession) : SymbolsResult × QSession :=
  (if ((sessionOrFresh session).symbols names).1.length = 1
   then SymbolsResult.single (((sessionOrFresh session).symbols names).1.getD 0 0)
   else SymbolsResult.tuple ((sessionOrFresh session).symbols names).1,
   ((sessionOrFresh session).symbols names).2)

namespace Series

lemma coeff_map_range (f : ℕ → ℚ) (n k : ℕ) (hk : k < n) :
    coeff ((List.range n).map f) k = f k := by
  unfold coeff
  rw [List.getD_eq_getElem _ _ (by simpa using hk)]
  simp

lemma length_add (a b : List ℚ) : (add a b).length = min a.length b.length :=
  List.length_zipWith ..

lemma coeff_add (a b : List ℚ) (k : ℕ) (hk : k < min a.length b.length) :
    coeff (add a b) k = coeff a k + coeff b k := by
  have h : k < (add a b).length := by rw [length_add]; exact hk
  unfold coeff
  rw [List.getD_eq_getElem _ _ h,
      List.getD_eq_getElem _ _ (by omega : k < a.length),
      List.getD_eq_getElem _ _ (by omega : k < b.length)]
  simp [add]

lemma length_multiply (a b : List ℚ) :
    (multiply a b).length = min a.length b.length := by
  simp [multiply]

lemma coeff_multiply (a b : List ℚ) (k : ℕ) (hk : k < min a.length b.length) :
    coeff (multiply a b) k = mulCoeff a b k :=
  coeff_map_range _ _ _ hk

end Series

/-- C1: for all Series `a` and `b`, `add(a,b)` is the elementwise sum of
coefficients truncated to `min(order_a, order_b)`, and `multiply(a,b)` is the
Cauchy product with `result[k] = ∑ i ∈ [0,k], a[i]·b[k-i]`, truncated to
`min(order_a, order_b)`. -/
theorem add_multiply_follow_spec (a b : List ℚ) :
    (Series.add a b).length = min a.length b.length ∧
    (∀ k, k < min a.length b.length →
      Series.coeff (Series.add a b) k = Series.coeff a k + Series.coeff b k) ∧
    (Series.multiply a b).length = min a.length b.length ∧
    (∀ k, k < min a.length b.length →
      Series.coeff (Series.multiply a b) k
        = ∑ i ∈ Finset.range (k + 1), Series.coeff a i * Series.coeff b (k - i)) :=
  ⟨Series.length_add a b, Series.coeff_add a b,
   Series.length_multiply a b, Series.coeff_multiply a b⟩

/-- Witness for C1 at `a = [1,2,7]`, `b = [3,4,5]`, `k = 1`. -/
theorem add_multiply_follow_spec_witness :
    Series.coeff (Series.add [(1:ℚ),2,7] [3,4,5]) 1
      = Series.coeff [(1:ℚ),2,7] 1 + Series.coeff [(3:ℚ),4,5] 1 ∧
    Series.coeff (Series.multiply [(1:ℚ),2,7] [3,4,5]) 1
      = ∑ i ∈ Finset.range 2,
          Series.coeff [(1:ℚ),2,7] i * Series.coeff [(3:ℚ),4,5] (1 - i) :=
  ⟨(add_multiply_follow_spec [(1:ℚ),2,7] [3,4,5]).2.1 1 (by simp),
   (add_multiply_follow_spec [(1:ℚ),2,7] [3,4,5]).2.2.2 1 (by simp)⟩

namespace Series

lemma length_invertList (a : List ℚ) (n : ℕ) : (invertList a n).length = n := by
  induction n with
  | zero => rfl
  | succ n ih => simp [invertList, ih]

lemma getD_invertList (a : List ℚ) {k n : ℕ} (h : k < n) :
    (invertList a n).getD k 0 = invc a k := by
  induction n with
  | zero => omega
  | succ n ih =>
    rcases Nat.lt_succ_iff_lt_or_eq.mp h with h' | h'
    · show (invertList a n ++ [_]).getD k 0 = invc a k
      rw [List.getD_append _ _ _ _ (by rw [length_invertList]; exact h')]
      exact ih h'
    · subst h'; rfl

lemma invc_zero (a : List ℚ) : invc a 0 = (coeff a 0)⁻¹ := by
  simp [invc, invertList]

lemma invc_succ (a : List ℚ) (n : ℕ) :
    invc a (n + 1)
      = -(coeff a 0)⁻¹ * ∑ i ∈ Finset.range (n + 1), coeff a (i + 1) * invc a (n - i) := by
  show (invertList a (n + 1) ++ [_]).getD (n + 1) 0 = _
  rw [List.getD_append_right _ _ _ _ (by rw [length_invertList])]
  rw [length_invertList]
  simp only [Nat.sub_self, List.getD_cons_zero]
  rw [if_neg (Nat.succ_ne_zero n)]
  congr 1
  refine Finset.sum_congr rfl fun i hi => ?_
  rw [getD_invertList a (by simp at hi; omega : n + 1 - 1 - i < n + 1),
      show n + 1 - 1 - i = n - i by omega]

lemma length_invertTotal (a : List ℚ) : (invertTotal a).length = a.length :=
  length_invertList a a.length

lemma coeff_invertTotal (a : List ℚ) {k : ℕ} (h : k < a.length) :
    coeff (invertTotal a) k = invc a k :=
  getD_invertList a h

end Series

/-- C3: `invert(a)` fails with DivisionByZero exactly when `a[0] = 0`; when
`a[0] ≠ 0` it succeeds and returns the series with `inv[0] = 1/a[0]` and
`inv[k] = -(1/a[0]) · ∑ i ∈ [1,k], a[i]·inv[k-i]`. -/
theorem invert_follows_spec (a : List ℚ) :
    (Series.invert a = none ↔ Series.coeff a 0 = 0) ∧
    (Series.coeff a 0 ≠ 0 →
      ∃ inv, Series.invert a = some inv ∧ inv.length = a.length ∧
        Series.coeff inv 0 = (Series.coeff a 0)⁻¹ ∧
        ∀ k, 0 < k → k < a.length →
          Series.coeff inv k
            = -(Series.coeff a 0)⁻¹ *
                ∑ i ∈ Finset.Icc 1 k, Series.coeff a i * Series.coeff inv (k - i)) := by
  constructor
  · unfold Series.invert
    split
    · exact ⟨fun _ => by assumption, fun _ => rfl⟩
    · exact ⟨fun h => absurd h (by simp), fun h => absurd h (by assumption)⟩
  · intro h0
    have hlen : 0 < a.length := by
      rcases a with _ | ⟨x, rest⟩
      · exact absurd rfl h0
      · simp
    refine ⟨Series.invertTotal a, ?_, Series.length_invertTotal a, ?_, ?_⟩
    · unfold Series.invert
      rw [if_neg h0]
    · rw [Series.coeff_invertTotal a hlen, Series.invc_zero]
    · intro k hk hka
      obtain ⟨n, rfl⟩ : ∃ n, k = n + 1 := ⟨k - 1, by omega⟩
      rw [Series.coeff_invertTotal a hka, Series.invc_succ]
      congr 1
      refine Eq.symm ?_
      rw [← Nat.Ico_succ_right, Finset.sum_Ico_eq_sum_range]
      refine Finset.sum_congr (by congr 1) fun i hi => ?_
      have hi' : i < n + 1 := by simp at hi; omega
      rw [Series.coeff_invertTotal a (by omega : n + 1 - (1 + i) < a.length)]
      rw [show 1 + i = i + 1 by omega, show n + 1 - (i + 1) = n - i by omega]

/-- Witness for C3 at `a = [2, 1]`: inversion succeeds, `inv[0] = 1/2`, and
the recurrence gives `inv[1]`. -/
theorem invert_follows_spec_witness :
    ∃ inv, Series.invert [(2:ℚ), 1] = some inv ∧ inv.length = 2 ∧
      Series.coeff inv 0 = (Series.coeff [(2:ℚ), 1] 0)⁻¹ ∧
      ∀ k, 0 < k → k < 2 →
        Series.coeff inv k
          = -(Series.coeff [(2:ℚ), 1] 0)⁻¹ *
              ∑ i ∈ Finset.Icc 1 k, Series.coeff [(2:ℚ), 1] i * Series.coeff inv (k - i) := by
  have h := (invert_follows_spec [(2:ℚ), 1]).2 (by norm_num [Series.coeff])
  simpa using h

lemma coeff_toPS (a : List ℚ) (k : ℕ) :
    PowerSeries.coeff ℚ k (toPS a) = Series.coeff a k :=
  PowerSeries.coeff_mk k _

lemma constantCoeff_toPS (a : List ℚ) :
    PowerSeries.constantCoeff ℚ (toPS a) = Series.coeff a 0 :=
  PowerSeries.constantCoeff_mk

lemma coeff_multiply_toPS (a b : List ℚ) (k : ℕ) (hk : k < min a.length b.length) :
    Series.coeff (Series.multiply a b) k = PowerSeries.coeff ℚ k (toPS a * toPS b) := by
  rw [Series.coeff_multiply a b k hk, PowerSeries.coeff_mul,
      Finset.Nat.sum_antidiagonal_eq_sum_range_succ_mk]
  exact Finset.sum_congr rfl fun i _ => by rw [coeff_toPS, coeff_toPS]

lemma invc_eq_coeff_inv (a : List ℚ) (k : ℕ) :
    Series.invc a k = PowerSeries.coeff ℚ k (toPS a)⁻¹ := by
  induction k using Nat.strong_induction_on with
  | _ k ih =>
    match k with
    | 0 =>
      rw [Series.invc_zero, PowerSeries.coeff_inv, if_pos rfl, constantCoeff_toPS]
    | n + 1 =>
      have hS : (∑ x ∈ Finset.antidiagonal (n + 1),
          if x.2 < n + 1 then
            PowerSeries.coeff ℚ x.1 (toPS a) * PowerSeries.coeff ℚ x.2 (toPS a)⁻¹
          else 0)
          = ∑ i ∈ Finset.range (n + 1), Series.coeff a (i + 1) * Series.invc a (n - i) := by
        rw [Finset.Nat.sum_antidiagonal_eq_sum_range_succ_mk, Finset.sum_range_succ']
        simp only [Nat.sub_zero, lt_self_iff_false, if_false, add_zero]
        refine Finset.sum_congr rfl fun i hi => ?_
        have hi' : i < n + 1 := by simpa using hi
        rw [if_pos (by omega), coeff_toPS,
            show n + 1 - (i + 1) = n - i by omega, ← ih (n - i) (by omega)]
      rw [Series.invc_succ, PowerSeries.coeff_inv, if_neg (Nat.succ_ne_zero n),
          constantCoeff_toPS, hS]

lemma coeff_invertTotal_toPS (a : List ℚ) {k : ℕ} (hk : k < a.length) :
    Series.coeff (Series.invertTotal a) k = PowerSeries.coeff ℚ k (toPS a)⁻¹ := by
  rw [Series.coeff_invertTotal a hk, invc_eq_coeff_inv a]

lemma coeff_one_series (n k : ℕ) (hk : k < n) :
    Series.coeff (Series.one n) k = if k = 0 then 1 else 0 :=
  Series.coeff_map_range _ _ _ hk

/-- C2: for every Series `a` with nonzero constant term, inversion succeeds
and `a * invert(a)` is the unit series `[1,0,…,0]` of the shared order. -/
theorem multiply_invert_eq_one (a : List ℚ) (h0 : Series.coeff a 0 ≠ 0) :
    Series.invert a = some (Series.invertTotal a) ∧
    Series.multiply a (Series.invertTotal a) = Series.one a.length := by
  refine ⟨by unfold Series.invert; rw [if_neg h0], ?_⟩
  have hlen : (Series.multiply a (Series.invertTotal a)).length = a.length := by
    rw [Series.length_multiply, Series.length_invertTotal, min_self]
  have hone : (Series.one a.length).length = a.length := by simp [Series.one]
  apply List.ext_getElem (by rw [hlen, hone])
  intro k hk1 hk2
  have hka : k < a.length := by rw [hlen] at hk1; exact hk1
  have hmin : k < min a.length (Series.invertTotal a).length := by
    rw [Series.length_invertTotal, min_self]; exact hka
  have lhs : Series.coeff (Series.multiply a (Series.invertTotal a)) k
      = if k = 0 then 1 else 0 := by
    rw [Series.coeff_multiply _ _ k hmin]
    unfold Series.mulCoeff
    have hterm : ∀ i ∈ Finset.range (k + 1),
        Series.coeff a i * Series.coeff (Series.invertTotal a) (k - i)
          = PowerSeries.coeff ℚ i (toPS a) * PowerSeries.coeff ℚ (k - i) (toPS a)⁻¹ := by
      intro i hi
      rw [coeff_toPS, coeff_invertTotal_toPS a (by omega : k - i < a.length)]
    rw [Finset.sum_congr rfl hterm,
        ← Finset.Nat.sum_antidiagonal_eq_sum_range_succ_mk
          (fun x => PowerSeries.coeff ℚ x.1 (toPS a) * PowerSeries.coeff ℚ x.2 (toPS a)⁻¹),
        ← PowerSeries.coeff_mul,
        PowerSeries.mul_inv_cancel _ (by rw [constantCoeff_toPS]; exact h0),
        PowerSeries.coeff_one]
  have rhs : Series.coeff (Series.one a.length) k = if k = 0 then 1 else 0 :=
    coeff_one_series a.length k hka
  rw [Series.coeff, List.getD_eq_getElem _ _ hk1] at lhs
  rw [Series.coeff, List.getD_eq_getElem _ _ hk2] at rhs
  rw [lhs, rhs]

/-- Witness for C2 at `a = [2, 1, 5]`. -/
theorem multiply_invert_eq_one_witness :
    Series.invert [(2:ℚ), 1, 5] = some (Series.invertTotal [(2:ℚ), 1, 5]) ∧
    Series.multiply [(2:ℚ), 1, 5] (Series.invertTotal [(2:ℚ), 1, 5]) = Series.one 3 :=
  multiply_invert_eq_one [(2:ℚ), 1, 5] (by norm_num [Series.coeff])

lemma partList_succ (n : ℕ) :
    partList (n + 1) = partList n ++ [if n = 0 then 1 else pentStep (partList n) n] :=
  rfl

lemma partitionTableAux_succ (N k : ℕ) :
    partitionTableAux N (k + 1) = partRow (k + 1) (partitionTableAux N k) :=
  rfl

set_option maxRecDepth 8000 in
set_option maxHeartbeats 1600000 in
lemma partList_51_eval : partList 51 = [1, 1, 2, 3, 5, 7, 11, 15, 22] ++ [30, 42, 56, 77, 101, 135, 176, 231, 297] ++ [385, 490, 627, 792, 1002, 1255, 1575, 1958, 2436] ++ [3010, 3718, 4565, 5604, 6842, 8349, 10143, 12310, 14883] ++ [17977, 21637, 26015, 31185, 37338, 44583, 53174, 63261, 75175] ++ [89134, 105558, 124754, 147273, 173525, 204226] := by
  have h1 : partList 1 = [1] := by decide
  have h2 : partList 2 = [1, 1] := by
    rw [partList_succ, h1]; decide
  have h3 : partList 3 = [1, 1, 2] := by
    rw [partList_succ, h2]; decide
  have h4 : partList 4 = [1, 1, 2, 3] := by
    rw [partList_succ, h3]; decide
  have h5 : partList 5 = [1, 1, 2, 3, 5] := by
    rw [partList_succ, h4]; decide
  have h6 : partList 6 = [1, 1, 2, 3, 5, 7] := by
    rw [partList_succ, h5]; decide
  have h7 : partList 7 = [1, 1, 2, 3, 5, 7, 11] := by
    rw [partList_succ, h6]; decide
  have h8 : partList 8 = [1, 1, 2, 3, 5, 7, 11, 15] := by
    rw [partList_succ, h7]; decide
  have h9 : partList 9 = [1, 1, 2, 3, 5, 7, 11, 15, 22] := by
    rw [partList_succ, h8]; decide
  have h10 : partList 10 = [1, 1, 2, 3, 5, 7, 11, 15, 22] ++ [30] := by
    rw [partList_succ, h9]; decide
  have h11 : partList 11 = [1, 1, 2, 3, 5, 7, 11, 15, 22] ++ [30, 42] := by
    rw [partList_succ, h10]; decide
  have h12 : partList 12 = [1, 1, 2, 3, 5, 7, 11, 15, 22] ++ [30, 42, 56] := by
    rw [partList_succ, h11]; decide
  have h13 : partList 13 = [1, 1, 2, 3, 5, 7, 11, 15, 22] ++ [30, 42, 56, 77] := by
    rw [partList_succ, h12]; decide
  have h14 : partList 14 = [1, 1, 2, 3, 5, 7, 11, 15, 22] ++ [30, 42, 56, 77, 101] := by
    rw [partList_succ, h13]; decide
  have h15 : partList 15 = [1, 1, 2, 3, 5, 7, 11, 15, 22] ++ [30, 42, 56, 77, 101, 135] := by
    rw [partList_succ, h14]; decide
  have h16 : partList 16 = [1, 1, 2, 3, 5, 7, 11, 15, 22] ++ [30, 42, 56, 77, 101, 135, 176] := by
    rw [partList_succ, h15]; decide
  have h17 : partList 17 = [1, 1, 2, 3, 5, 7, 11, 15, 22] ++ [30, 42, 56, 77, 101, 135, 176, 231] := by
    rw [partList_succ, h16]; decide
  have h18 : partList 18 = [1, 1, 2, 3, 5, 7, 11, 15, 22] ++ [30, 42, 56, 77, 101, 135, 176, 231, 297] := by
    rw [partList_succ, h17]; decide
  have h19 : partList 19 = [1, 1, 2, 3, 5, 7, 11, 15, 22] ++ [30, 42, 56, 77, 101, 135, 176, 231, 297] ++ [385] := by
    rw [partList_succ, h18]; decide
  have h20 : partList 20 = [1, 1, 2, 3, 5, 7, 11, 15, 22] ++ [30, 42, 56, 77, 101, 135, 176, 231, 297] ++ [385, 490] := by
    rw [partList_succ, h19]; decide
  have h21 : partList 21 = [1, 1, 2, 3, 5, 7, 11, 15, 22] ++ [30, 42, 56, 77, 101, 135, 176, 231, 297] ++ [385, 490, 627] := by
    rw [partList_succ, h20]; decide
  have h22 : partList 22 = [1, 1, 2, 3, 5, 7, 11, 15, 22] ++ [30, 42, 56, 77, 101, 135, 176, 231, 297] ++ [385, 490, 627, 792] := by
    rw [partList_succ, h21]; decide
  have h23 : partList 23 = [1, 1, 2, 3, 5, 7, 11, 15, 22] ++ [30, 42, 56, 77, 101, 135, 176, 231, 297] ++ [385, 490, 627, 792, 1002] := by
    rw [partList_succ, h22]; decide
  have h24 : partList 24 = [1, 1, 2, 3, 5, 7, 11, 15, 22] ++ [30, 42, 56, 77, 101, 135, 176, 231, 297] ++ [385, 490, 627, 792, 1002, 1255] := by
    rw [partList_succ, h23]; decide
  have h25 : partList 25 = [1, 1, 2, 3, 5, 7, 11, 15, 22] ++ [30, 42, 56, 77, 101, 135, 176, 231, 297] ++ [385, 490, 627, 792, 1002, 1255, 1575] := by
    rw [partList_succ, h24]; decide
  have h26 : partList 26 = [1, 1, 2, 3, 5, 7, 11, 15, 22] ++ [30, 42, 56, 77, 101, 135, 176, 231, 297] ++ [385, 490, 627, 792, 1002, 1255, 1575, 1958] := by
    rw [partList_succ, h25]; decide
  have h27 : partList 27 = [1, 1, 2, 3, 5, 7, 11, 15, 22] ++ [30, 42, 56, 77, 101, 135, 176, 231, 297] ++ [385, 490, 627, 792, 1002, 1255, 1575, 1958, 2436] := by
    rw [partList_succ, h26]; decide
  have h28 : partList 28 = [1, 1, 2, 3, 5, 7, 11, 15, 22] ++ [30, 42, 56, 77, 101, 135, 176, 231, 297] ++ [385, 490, 627, 792, 1002, 1255, 1575, 1958, 2436] ++ [3010] := by
    rw [partList_succ, h27]; decide
  have h29 : partList 29 = [1, 1, 2, 3, 5, 7, 11, 15, 22] ++ [30, 42, 56, 77, 101, 135, 176, 231, 297] ++ [385, 490, 627, 792, 1002, 1255, 1575, 1958, 2436] ++ [3010, 3718] := by
    rw [partList_succ, h28]; decide
  have h30 : partList 30 = [1, 1, 2, 3, 5, 7, 11, 15, 22] ++ [30, 42, 56, 77, 101, 135, 176, 231, 297] ++ [385, 490, 627, 792, 1002, 1255, 1575, 1958, 2436] ++ [3010, 3718, 4565] := by
    rw [partList_succ, h29]; decide
  have h31 : partList 31 = [1, 1, 2, 3, 5, 7, 11, 15, 22] ++ [30, 42, 56, 77, 101, 135, 176, 231, 297] ++ [385, 490, 627, 792, 1002, 1255, 1575, 1958, 2436] ++ [3010, 3718, 4565, 5604] := by
    rw [partList_succ, h30]; decide
  have h32 : partList 32 = [1, 1, 2, 3, 5, 7, 11, 15, 22] ++ [30, 42, 56, 77, 101, 135, 176, 231, 297] ++ [385, 490, 627, 792, 1002, 1255, 1575, 1958, 2436] ++ [3010, 3718, 4565, 5604, 6842] := by
    rw [partList_succ, h31]; decide
  have h33 : partList 33 = [1, 1, 2, 3, 5, 7, 11, 15, 22] ++ [30, 42, 56, 77, 101, 135, 176, 231, 297] ++ [385, 490, 627, 792, 1002, 1255, 1575, 1958, 2436] ++ [3010, 3718, 4565, 5604, 6842, 8349] := by
    rw [partList_succ, h32]; decide
  have h34 : partList 34 = [1, 1, 2, 3, 5, 7, 11, 15, 22] ++ [30, 42, 56, 77, 101, 135, 176, 231, 297] ++ [385, 490, 627, 792, 1002, 1255, 1575, 1958, 2436] ++ [3010, 3718, 4565, 5604, 6842, 8349, 10143] := by
    rw [partList_succ, h33]; decide
  have h35 : partList 35 = [1, 1, 2, 3, 5, 7, 11, 15, 22] ++ [30, 42, 56, 77, 101, 135, 176, 231, 297] ++ [385, 490, 627, 792, 1002, 1255, 1575, 1958, 2436] ++ [3010, 3718, 4565, 5604, 6842, 8349, 10143, 12310] := by
    rw [partList_succ, h34]; decide
  have h36 : partList 36 = [1, 1, 2, 3, 5, 7, 11, 15, 22] ++ [30, 42, 56, 77, 101, 135, 176, 231, 297] ++ [385, 490, 627, 792, 1002, 1255, 1575, 1958, 2436] ++ [3010, 3718, 4565, 5604, 6842, 8349, 10143, 12310, 14883] := by
    rw [partList_succ, h35]; decide
  have h37 : partList 37 = [1, 1, 2, 3, 5, 7, 11, 15, 22] ++ [30, 42, 56, 77, 101, 135, 176, 231, 297] ++ [385, 490, 627, 792, 1002, 1255, 1575, 1958, 2436] ++ [3010, 3718, 4565, 5604, 6842, 8349, 10143, 12310, 14883] ++ [17977] := by
    rw [partList_succ, h36]; decide
  have h38 : partList 38 = [1, 1, 2, 3, 5, 7, 11, 15, 22] ++ [30, 42, 56, 77, 101, 135, 176, 231, 297] ++ [385, 490, 627, 792, 1002, 1255, 1575, 1958, 2436] ++ [3010, 3718, 4565, 5604, 6842, 8349, 10143, 12310, 14883] ++ [17977, 21637] := by
    rw [partList_succ, h37]; decide
  have h39 : partList 39 = [1, 1, 2, 3, 5, 7, 11, 15, 22] ++ [30, 42, 56, 77, 101, 135, 176, 231, 297] ++ [385, 490, 627, 792, 1002, 1255, 1575, 1958, 2436] ++ [3010, 3718, 4565, 5604, 6842, 8349, 10143, 12310, 14883] ++ [17977, 21637, 26015] := by
    rw [partList_succ, h38]; decide
  have h40 : partList 40 = [1, 1, 2, 3, 5, 7, 11, 15, 22] ++ [30, 42, 56, 77, 101, 135, 176, 231, 297] ++ [385, 490, 627, 792, 1002, 1255, 1575, 1958, 2436] ++ [3010, 3718, 4565, 5604, 6842, 8349, 10143, 12310, 14883] ++ [17977, 21637, 26015, 31185] := by
    rw [partList_succ, h39]; decide
  have h41 : partList 41 = [1, 1, 2, 3, 5, 7, 11, 15, 22] ++ [30, 42, 56, 77, 101, 135, 176, 231, 297] ++ [385, 490, 627, 792, 1002, 1255, 1575, 1958, 2436] ++ [3010, 3718, 4565, 5604, 6842, 8349, 10143, 12310, 14883] ++ [17977, 21637, 26015, 31185, 37338] := by
    rw [partList_succ, h40]; decide
  have h42 : partList 42 = [1, 1, 2, 3, 5, 7, 11, 15, 22] ++ [30, 42, 56, 77, 101, 135, 176, 231, 297] ++ [385, 490, 627, 792, 1002, 1255, 1575, 1958, 2436] ++ [3010, 3718, 4565, 5604, 6842, 8349, 10143, 12310, 14883] ++ [17977, 21637, 26015, 31185, 37338, 44583] := by
    rw [partList_succ, h41]; decide
  have h43 : partList 43 = [1, 1, 2, 3, 5, 7, 11, 15, 22] ++ [30, 42, 56, 77, 101, 135, 176, 231, 297] ++ [385, 490, 627, 792, 1002, 1255, 1575, 1958, 2436] ++ [3010, 3718, 4565, 5604, 6842, 8349, 10143, 12310, 14883] ++ [17977, 21637, 26015, 31185, 37338, 44583, 53174] := by
    rw [partList_succ, h42]; decide
  have h44 : partList 44 = [1, 1, 2, 3, 5, 7, 11, 15, 22] ++ [30, 42, 56, 77, 101, 135, 176, 231, 297] ++ [385, 490, 627, 792, 1002, 1255, 1575, 1958, 2436] ++ [3010, 3718, 4565, 5604, 6842, 8349, 10143, 12310, 14883] ++ [17977, 21637, 26015, 31185, 37338, 44583, 53174, 63261] := by
    rw [partList_succ, h43]; decide
  have h45 : partList 45 = [1, 1, 2, 3, 5, 7, 11, 15, 22] ++ [30, 42, 56, 77, 101, 135, 176, 231, 297] ++ [385, 490, 627, 792, 1002, 1255, 1575, 1958, 2436] ++ [3010, 3718, 4565, 5604, 6842, 8349, 10143, 12310, 14883] ++ [17977, 21637, 26015, 31185, 37338, 44583, 53174, 63261, 75175] := by
    rw [partList_succ, h44]; decide
  have h46 : partList 46 = [1, 1, 2, 3, 5, 7, 11, 15, 22] ++ [30, 42, 56, 77, 101, 135, 176, 231, 297] ++ [385, 490, 627, 792, 1002, 1255, 1575, 1958, 2436] ++ [3010, 3718, 4565, 5604, 6842, 8349, 10143, 12310, 14883] ++ [17977, 21637, 26015, 31185, 37338, 44583, 53174, 63261, 75175] ++ [89134] := by
    rw [partList_succ, h45]; decide
  have h47 : partList 47 = [1, 1, 2, 3, 5, 7, 11, 15, 22] ++ [30, 42, 56, 77, 101, 135, 176, 231, 297] ++ [385, 490, 627, 792, 1002, 1255, 1575, 1958, 2436] ++ [3010, 3718, 4565, 5604, 6842, 8349, 10143, 12310, 14883] ++ [17977, 21637, 26015, 31185, 37338, 44583, 53174, 63261, 75175] ++ [89134, 105558] := by
    rw [partList_succ, h46]; decide
  have h48 : partList 48 = [1, 1, 2, 3, 5, 7, 11, 15, 22] ++ [30, 42, 56, 77, 101, 135, 176, 231, 297] ++ [385, 490, 627, 792, 1002, 1255, 1575, 1958, 2436] ++ [3010, 3718, 4565, 5604, 6842, 8349, 10143, 12310, 14883] ++ [17977, 21637, 26015, 31185, 37338, 44583, 53174, 63261, 75175] ++ [89134, 105558, 124754] := by
    rw [partList_succ, h47]; decide
  have h49 : partList 49 = [1, 1, 2, 3, 5, 7, 11, 15, 22] ++ [30, 42, 56, 77, 101, 135, 176, 231, 297] ++ [385, 490, 627, 792, 1002, 1255, 1575, 1958, 2436] ++ [3010, 3718, 4565, 5604, 6842, 8349, 10143, 12310, 14883] ++ [17977, 21637, 26015, 31185, 37338, 44583, 53174, 63261, 75175] ++ [89134, 105558, 124754, 147273] := by
    rw [partList_succ, h48]; decide
  have h50 : partList 50 = [1, 1, 2, 3, 5, 7, 11, 15, 22] ++ [30, 42, 56, 77, 101, 135, 176, 231, 297] ++ [385, 490, 627, 792, 1002, 1255, 1575, 1958, 2436] ++ [3010, 3718, 4565, 5604, 6842, 8349, 10143, 12310, 14883] ++ [17977, 21637, 26015, 31185, 37338, 44583, 53174, 63261, 75175] ++ [89134, 105558, 124754, 147273, 173525] := by
    rw [partList_succ, h49]; decide
  have h51 : partList 51 = [1, 1, 2, 3, 5, 7, 11, 15, 22] ++ [30, 42, 56, 77, 101, 135, 176, 231, 297] ++ [385, 490, 627, 792, 1002, 1255, 1575, 1958, 2436] ++ [3010, 3718, 4565, 5604, 6842, 8349, 10143, 12310, 14883] ++ [17977, 21637, 26015, 31185, 37338, 44583, 53174, 63261, 75175] ++ [89134, 105558, 124754, 147273, 173525, 204226] := by
    rw [partList_succ, h50]; decide
  exact h51

set_option maxRecDepth 8000 in
set_option maxHeartbeats 1600000 in
lemma partitionTable_50_eval : partitionTable 50 = [1, 1, 2, 3, 5, 7, 11, 15, 22] ++ [30, 42, 56, 77, 101, 135, 176, 231, 297] ++ [385, 490, 627, 792, 1002, 1255, 1575, 1958, 2436] ++ [3010, 3718, 4565, 5604, 6842, 8349, 10143, 12310, 14883] ++ [17977, 21637, 26015, 31185, 37338, 44583, 53174, 63261, 75175] ++ [89134, 105558, 124754, 147273, 173525, 204226] := by
  have t0 : partitionTableAux 50 0 = [1, 0, 0, 0, 0, 0, 0, 0, 0] ++ [0, 0, 0, 0, 0, 0, 0, 0, 0] ++ [0, 0, 0, 0, 0, 0, 0, 0, 0] ++ [0, 0, 0, 0, 0, 0, 0, 0, 0] ++ [0, 0, 0, 0, 0, 0, 0, 0, 0] ++ [0, 0, 0, 0, 0, 0] := by decide
  have t1 : partitionTableAux 50 1 = [1, 1, 1, 1, 1, 1, 1, 1, 1] ++ [1, 1, 1, 1, 1, 1, 1, 1, 1] ++ [1, 1, 1, 1, 1, 1, 1, 1, 1] ++ [1, 1, 1, 1, 1, 1, 1, 1, 1] ++ [1, 1, 1, 1, 1, 1, 1, 1, 1] ++ [1, 1, 1, 1, 1, 1] := by
    rw [partitionTableAux_succ, t0]; decide
  have t2 : partitionTableAux 50 2 = [1, 1, 2, 2, 3, 3, 4, 4, 5] ++ [5, 6, 6, 7, 7, 8, 8, 9, 9] ++ [10, 10, 11, 11, 12, 12, 13, 13, 14] ++ [14, 15, 15, 16, 16, 17, 17, 18, 18] ++ [19, 19, 20, 20, 21, 21, 22, 22, 23] ++ [23, 24, 24, 25, 25, 26] := by
    rw [partitionTableAux_succ, t1]; decide
  have t3 : partitionTableAux 50 3 = [1, 1, 2, 3, 4, 5, 7, 8, 10] ++ [12, 14, 16, 19, 21, 24, 27, 30, 33] ++ [37, 40, 44, 48, 52, 56, 61, 65, 70] ++ [75, 80, 85, 91, 96, 102, 108, 114, 120] ++ [127, 133, 140, 147, 154, 161, 169, 176, 184] ++ [192, 200, 208, 217, 225, 234] := by
    rw [partitionTableAux_succ, t2]; decide
  have t4 : partitionTableAux 50 4 = [1, 1, 2, 3, 5, 6, 9, 11, 15] ++ [18, 23, 27, 34, 39, 47, 54, 64, 72] ++ [84, 94, 108, 120, 136, 150, 169, 185, 206] ++ [225, 249, 270, 297, 321, 351, 378, 411, 441] ++ [478, 511, 551, 588, 632, 672, 720, 764, 816] ++ [864, 920, 972, 1033, 1089, 1154] := by
    rw [partitionTableAux_succ, t3]; decide
  have t5 : partitionTableAux 50 5 = [1, 1, 2, 3, 5, 7, 10, 13, 18] ++ [23, 30, 37, 47, 57, 70, 84, 101, 119] ++ [141, 164, 192, 221, 255, 291, 333, 377, 427] ++ [480, 540, 603, 674, 748, 831, 918, 1014, 1115] ++ [1226, 1342, 1469, 1602, 1747, 1898, 2062, 2233, 2418] ++ [2611, 2818, 3034, 3266, 3507, 3765] := by
    rw [partitionTableAux_succ, t4]; decide
  have t6 : partitionTableAux 50 6 = [1, 1, 2, 3, 5, 7, 11, 14, 20] ++ [26, 35, 44, 58, 71, 90, 110, 136, 163] ++ [199, 235, 282, 331, 391, 454, 532, 612, 709] ++ [811, 931, 1057, 1206, 1360, 1540, 1729, 1945, 2172] ++ [2432, 2702, 3009, 3331, 3692, 4070, 4494, 4935, 5427] ++ [5942, 6510, 7104, 7760, 8442, 9192] := by
    rw [partitionTableAux_succ, t5]; decide
  have t7 : partitionTableAux 50 7 = [1, 1, 2, 3, 5, 7, 11, 15, 21] ++ [28, 38, 49, 65, 82, 105, 131, 164, 201] ++ [248, 300, 364, 436, 522, 618, 733, 860, 1009] ++ [1175, 1367, 1579, 1824, 2093, 2400, 2738, 3120, 3539] ++ [4011, 4526, 5102, 5731, 6430, 7190, 8033, 8946, 9953] ++ [11044, 12241, 13534, 14950, 16475, 18138] := by
    rw [partitionTableAux_succ, t6]; decide
  have t8 : partitionTableAux 50 8 = [1, 1, 2, 3, 5, 7, 11, 15, 22] ++ [29, 40, 52, 70, 89, 116, 146, 186, 230] ++ [288, 352, 434, 525, 638, 764, 919, 1090, 1297] ++ [1527, 1801, 2104, 2462, 2857, 3319, 3828, 4417, 5066] ++ [5812, 6630, 7564, 8588, 9749, 11018, 12450, 14012, 15765] ++ [17674, 19805, 22122, 24699, 27493, 30588] := by
    rw [partitionTableAux_succ, t7]; decide
  have t9 : partitionTableAux 50 9 = [1, 1, 2, 3, 5, 7, 11, 15, 22] ++ [30, 41, 54, 73, 94, 123, 157, 201, 252] ++ [318, 393, 488, 598, 732, 887, 1076, 1291, 1549] ++ [1845, 2194, 2592, 3060, 3589, 4206, 4904, 5708, 6615] ++ [7657, 8824, 10156, 11648, 13338, 15224, 17354, 19720, 22380] ++ [25331, 28629, 32278, 36347, 40831, 45812] := by
    rw [partitionTableAux_succ, t8]; decide
  have t10 : partitionTableAux 50 10 = [1, 1, 2, 3, 5, 7, 11, 15, 22] ++ [30, 42, 55, 75, 97, 128, 164, 212, 267] ++ [340, 423, 530, 653, 807, 984, 1204, 1455, 1761] ++ [2112, 2534, 3015, 3590, 4242, 5013, 5888, 6912, 8070] ++ [9418, 10936, 12690, 14663, 16928, 19466, 22367, 25608, 29292] ++ [33401, 38047, 43214, 49037, 55494, 62740] := by
    rw [partitionTableAux_succ, t9]; decide
  have t11 : partitionTableAux 50 11 = [1, 1, 2, 3, 5, 7, 11, 15, 22] ++ [30, 42, 56, 76, 99, 131, 169, 219, 278] ++ [355, 445, 560, 695, 863, 1060, 1303, 1586, 1930] ++ [2331, 2812, 3370, 4035, 4802, 5708, 6751, 7972, 9373] ++ [11004, 12866, 15021, 17475, 20298, 23501, 27169, 31316, 36043] ++ [41373, 47420, 54218, 61903, 70515, 80215] := by
    rw [partitionTableAux_succ, t10]; decide
  have t12 : partitionTableAux 50 12 = [1, 1, 2, 3, 5, 7, 11, 15, 22] ++ [30, 42, 56, 77, 100, 133, 172, 224, 285] ++ [366, 460, 582, 725, 905, 1116, 1380, 1686, 2063] ++ [2503, 3036, 3655, 4401, 5262, 6290, 7476, 8877, 10489] ++ [12384, 14552, 17084, 19978, 23334, 27156, 31570, 36578, 42333] ++ [48849, 56297, 64707, 74287, 85067, 97299] := by
    rw [partitionTableAux_succ, t11]; decide
  have t13 : partitionTableAux 50 13 = [1, 1, 2, 3, 5, 7, 11, 15, 22] ++ [30, 42, 56, 77, 101, 134, 174, 227, 290] ++ [373, 471, 597, 747, 935, 1158, 1436, 1763, 2164] ++ [2637, 3210, 3882, 4691, 5635, 6761, 8073, 9624, 11424] ++ [13542, 15988, 18847, 22142, 25971, 30366, 35452, 41269, 47968] ++ [55610, 64370, 74331, 85711, 98609, 113287] := by
    rw [partitionTableAux_succ, t12]; decide
  have t14 : partitionTableAux 50 14 = [1, 1, 2, 3, 5, 7, 11, 15, 22] ++ [30, 42, 56, 77, 101, 135, 175, 229, 293] ++ [378, 478, 608, 762, 957, 1188, 1478, 1819, 2241] ++ [2738, 3345, 4057, 4920, 5928, 7139, 8551, 10232, 12186] ++ [14499, 17176, 20325, 23961, 28212, 33104, 38797, 45326, 52888] ++ [61538, 71509, 82882, 95943, 110795, 127786] := by
    rw [partitionTableAux_succ, t13]; decide
  have t15 : partitionTableAux 50 15 = [1, 1, 2, 3, 5, 7, 11, 15, 22] ++ [30, 42, 56, 77, 101, 135, 176, 230, 295] ++ [381, 483, 615, 773, 972, 1210, 1508, 1861, 2297] ++ [2815, 3446, 4192, 5096, 6158, 7434, 8932, 10715, 12801] ++ [15272, 18148, 21535, 25469, 30073, 35401, 41612, 48772, 57080] ++ [66634, 77667, 90316, 104875, 121510, 140587] := by
    rw [partitionTableAux_succ, t14]; decide
  have t16 : partitionTableAux 50 16 = [1, 1, 2, 3, 5, 7, 11, 15, 22] ++ [30, 42, 56, 77, 101, 135, 176, 231, 296] ++ [383, 486, 620, 780, 983, 1225, 1530, 1891, 2339] ++ [2871, 3523, 4293, 5231, 6334, 7665, 9228, 11098, 13287] ++ [15892, 18928, 22518, 26694, 31603, 37292, 43951, 51643, 60603] ++ [70927, 82898, 96650, 112540, 130738, 151685] := by
    rw [partitionTableAux_succ, t15]; decide
  have t17 : partitionTableAux 50 17 = [1, 1, 2, 3, 5, 7, 11, 15, 22] ++ [30, 42, 56, 77, 101, 135, 176, 231, 297] ++ [384, 488, 623, 785, 990, 1236, 1545, 1913, 2369] ++ [2913, 3579, 4370, 5332, 6469, 7841, 9459, 11395, 13671] ++ [16380, 19551, 23303, 27684, 32839, 38837, 45864, 54012, 63516] ++ [74506, 87268, 101982, 119009, 138579, 161144] := by
    rw [partitionTableAux_succ, t16]; decide
  have t18 : partitionTableAux 50 18 = [1, 1, 2, 3, 5, 7, 11, 15, 22] ++ [30, 42, 56, 77, 101, 135, 176, 231, 297] ++ [385, 489, 625, 788, 995, 1243, 1556, 1928, 2391] ++ [2943, 3621, 4426, 5409, 6570, 7976, 9635, 11626, 13968] ++ [16765, 20040, 23928, 28472, 33834, 40080, 47420, 55940, 65907] ++ [77449, 90889, 106408, 124418, 145149, 169120] := by
    rw [partitionTableAux_succ, t17]; decide
  have t19 : partitionTableAux 50 19 = [1, 1, 2, 3, 5, 7, 11, 15, 22] ++ [30, 42, 56, 77, 101, 135, 176, 231, 297] ++ [385, 490, 626, 790, 998, 1248, 1563, 1939, 2406] ++ [2965, 3651, 4468, 5465, 6647, 8077, 9770, 11802, 14199] ++ [17062, 20425, 24418, 29098, 34624, 41078, 48668, 57503, 67846] ++ [79855, 93854, 110059, 128886, 150614, 175767] := by
    rw [partitionTableAux_succ, t18]; decide
  have t20 : partitionTableAux 50 20 = [1, 1, 2, 3, 5, 7, 11, 15, 22] ++ [30, 42, 56, 77, 101, 135, 176, 231, 297] ++ [385, 490, 627, 791, 1000, 1251, 1568, 1946, 2417] ++ [2980, 3673, 4498, 5507, 6703, 8154, 9871, 11937, 14375] ++ [17293, 20722, 24803, 29588, 35251, 41869, 49668, 58754, 69414] ++ [81801, 96271, 113039, 132559, 155112, 181274] := by
    rw [partitionTableAux_succ, t19]; decide
  have t21 : partitionTableAux 50 21 = [1, 1, 2, 3, 5, 7, 11, 15, 22] ++ [30, 42, 56, 77, 101, 135, 176, 231, 297] ++ [385, 490, 627, 792, 1001, 1253, 1571, 1951, 2424] ++ [2991, 3688, 4520, 5537, 6745, 8210, 9948, 12038, 14510] ++ [17469, 20953, 25100, 29973, 35741, 42496, 50460, 59755, 70667] ++ [83372, 98222, 115463, 135550, 158800, 185794] := by
    rw [partitionTableAux_succ, t20]; decide
  have t22 : partitionTableAux 50 22 = [1, 1, 2, 3, 5, 7, 11, 15, 22] ++ [30, 42, 56, 77, 101, 135, 176, 231, 297] ++ [385, 490, 627, 792, 1002, 1254, 1573, 1954, 2429] ++ [2998, 3699, 4535, 5559, 6775, 8252, 10004, 12115, 14611] ++ [17604, 21129, 25331, 30270, 36126, 42986, 51087, 60547, 71669] ++ [84626, 99795, 117417, 137979, 161798, 189493] := by
    rw [partitionTableAux_succ, t21]; decide
  have t23 : partitionTableAux 50 23 = [1, 1, 2, 3, 5, 7, 11, 15, 22] ++ [30, 42, 56, 77, 101, 135, 176, 231, 297] ++ [385, 490, 627, 792, 1002, 1255, 1574, 1956, 2432] ++ [3003, 3706, 4546, 5574, 6797, 8282, 10046, 12171, 14688] ++ [17705, 21264, 25507, 30501, 36423, 43371, 51577, 61174, 72461] ++ [85628, 101050, 118991, 139935, 164230, 192496] := by
    rw [partitionTableAux_succ, t22]; decide
  have t24 : partitionTableAux 50 24 = [1, 1, 2, 3, 5, 7, 11, 15, 22] ++ [30, 42, 56, 77, 101, 135, 176, 231, 297] ++ [385, 490, 627, 792, 1002, 1255, 1575, 1957, 2434] ++ [3006, 3711, 4553, 5585, 6812, 8304, 10076, 12213, 14744] ++ [17782, 21365, 25642, 30677, 36654, 43668, 51962, 61664, 73088] ++ [86420, 102052, 120246, 141510, 166187, 194930] := by
    rw [partitionTableAux_succ, t23]; decide
  have t25 : partitionTableAux 50 25 = [1, 1, 2, 3, 5, 7, 11, 15, 22] ++ [30, 42, 56, 77, 101, 135, 176, 231, 297] ++ [385, 490, 627, 792, 1002, 1255, 1575, 1958, 2435] ++ [3008, 3714, 4558, 5592, 6823, 8319, 10098, 12243, 14786] ++ [17838, 21442, 25743, 30812, 36830, 43899, 52259, 62049, 73578] ++ [87047, 102844, 121248, 142765, 167762, 196888] := by
    rw [partitionTableAux_succ, t24]; decide
  have t26 : partitionTableAux 50 26 = [1, 1, 2, 3, 5, 7, 11, 15, 22] ++ [30, 42, 56, 77, 101, 135, 176, 231, 297] ++ [385, 490, 627, 792, 1002, 1255, 1575, 1958, 2436] ++ [3009, 3716, 4561, 5597, 6830, 8330, 10113, 12265, 14816] ++ [17880, 21498, 25820, 30913, 36965, 44075, 52490, 62346, 73963] ++ [87537, 103471, 122040, 143767, 169017, 198463] := by
    rw [partitionTableAux_succ, t25]; decide
  have t27 : partitionTableAux 50 27 = [1, 1, 2, 3, 5, 7, 11, 15, 22] ++ [30, 42, 56, 77, 101, 135, 176, 231, 297] ++ [385, 490, 627, 792, 1002, 1255, 1575, 1958, 2436] ++ [3010, 3717, 4563, 5600, 6835, 8337, 10124, 12280, 14838] ++ [17910, 21540, 25876, 30990, 37066, 44210, 52666, 62577, 74260] ++ [87922, 103961, 122667, 144559, 170019, 199718] := by
    rw [partitionTableAux_succ, t26]; decide
  have t28 : partitionTableAux 50 28 = [1, 1, 2, 3, 5, 7, 11, 15, 22] ++ [30, 42, 56, 77, 101, 135, 176, 231, 297] ++ [385, 490, 627, 792, 1002, 1255, 1575, 1958, 2436] ++ [3010, 3718, 4564, 5602, 6838, 8342, 10131, 12291, 14853] ++ [17932, 21570, 25918, 31046, 37143, 44311, 52801, 62753, 74491] ++ [88219, 104346, 123157, 145186, 170811, 200720] := by
    rw [partitionTableAux_succ, t27]; decide
  have t29 : partitionTableAux 50 29 = [1, 1, 2, 3, 5, 7, 11, 15, 22] ++ [30, 42, 56, 77, 101, 135, 176, 231, 297] ++ [385, 490, 627, 792, 1002, 1255, 1575, 1958, 2436] ++ [3010, 3718, 4565, 5603, 6840, 8345, 10136, 12298, 14864] ++ [17947, 21592, 25948, 31088, 37199, 44388, 52902, 62888, 74667] ++ [88450, 104643, 123542, 145676, 171438, 201512] := by
    rw [partitionTableAux_succ, t28]; decide
  have t30 : partitionTableAux 50 30 = [1, 1, 2, 3, 5, 7, 11, 15, 22] ++ [30, 42, 56, 77, 101, 135, 176, 231, 297] ++ [385, 490, 627, 792, 1002, 1255, 1575, 1958, 2436] ++ [3010, 3718, 4565, 5604, 6841, 8347, 10139, 12303, 14871] ++ [17958, 21607, 25970, 31118, 37241, 44444, 52979, 62989, 74802] ++ [88626, 104874, 123839, 146061, 171928, 202139] := by
    rw [partitionTableAux_succ, t29]; decide
  have t31 : partitionTableAux 50 31 = [1, 1, 2, 3, 5, 7, 11, 15, 22] ++ [30, 42, 56, 77, 101, 135, 176, 231, 297] ++ [385, 490, 627, 792, 1002, 1255, 1575, 1958, 2436] ++ [3010, 3718, 4565, 5604, 6842, 8348, 10141, 12306, 14876] ++ [17965, 21618, 25985, 31140, 37271, 44486, 53035, 63066, 74903] ++ [88761, 105050, 124070, 146358, 172313, 202629] := by
    rw [partitionTableAux_succ, t30]; decide
  have t32 : partitionTableAux 50 32 = [1, 1, 2, 3, 5, 7, 11, 15, 22] ++ [30, 42, 56, 77, 101, 135, 176, 231, 297] ++ [385, 490, 627, 792, 1002, 1255, 1575, 1958, 2436] ++ [3010, 3718, 4565, 5604, 6842, 8349, 10142, 12308, 14879] ++ [17970, 21625, 25996, 31155, 37293, 44516, 53077, 63122, 74980] ++ [88862, 105185, 124246, 146589, 172610, 203014] := by
    rw [partitionTableAux_succ, t31]; decide
  have t33 : partitionTableAux 50 33 = [1, 1, 2, 3, 5, 7, 11, 15, 22] ++ [30, 42, 56, 77, 101, 135, 176, 231, 297] ++ [385, 490, 627, 792, 1002, 1255, 1575, 1958, 2436] ++ [3010, 3718, 4565, 5604, 6842, 8349, 10143, 12309, 14881] ++ [17973, 21630, 26003, 31166, 37308, 44538, 53107, 63164, 75036] ++ [88939, 105286, 124381, 146765, 172841, 203311] := by
    rw [partitionTableAux_succ, t32]; decide
  have t34 : partitionTableAux 50 34 = [1, 1, 2, 3, 5, 7, 11, 15, 22] ++ [30, 42, 56, 77, 101, 135, 176, 231, 297] ++ [385, 490, 627, 792, 1002, 1255, 1575, 1958, 2436] ++ [3010, 3718, 4565, 5604, 6842, 8349, 10143, 12310, 14882] ++ [17975, 21633, 26008, 31173, 37319, 44553, 53129, 63194, 75078] ++ [88995, 105363, 124482, 146900, 173017, 203542] := by
    rw [partitionTableAux_succ, t33]; decide
  have t35 : partitionTableAux 50 35 = [1, 1, 2, 3, 5, 7, 11, 15, 22] ++ [30, 42, 56, 77, 101, 135, 176, 231, 297] ++ [385, 490, 627, 792, 1002, 1255, 1575, 1958, 2436] ++ [3010, 3718, 4565, 5604, 6842, 8349, 10143, 12310, 14883] ++ [17976, 21635, 26011, 31178, 37326, 44564, 53144, 63216, 75108] ++ [89037, 105419, 124559, 147001, 173152, 203718] := by
    rw [partitionTableAux_succ, t34]; decide
  have t36 : partitionTableAux 50 36 = [1, 1, 2, 3, 5, 7, 11, 15, 22] ++ [30, 42, 56, 77, 101, 135, 176, 231, 297] ++ [385, 490, 627, 792, 1002, 1255, 1575, 1958, 2436] ++ [3010, 3718, 4565, 5604, 6842, 8349, 10143, 12310, 14883] ++ [17977, 21636, 26013, 31181, 37331, 44571, 53155, 63231, 75130] ++ [89067, 105461, 124615, 147078, 173253, 203853] := by
    rw [partitionTableAux_succ, t35]; decide
  have t37 : partitionTableAux 50 37 = [1, 1, 2, 3, 5, 7, 11, 15, 22] ++ [30, 42, 56, 77, 101, 135, 176, 231, 297] ++ [385, 490, 627, 792, 1002, 1255, 1575, 1958, 2436] ++ [3010, 3718, 4565, 5604, 6842, 8349, 10143, 12310, 14883] ++ [17977, 21637, 26014, 31183, 37334, 44576, 53162, 63242, 75145] ++ [89089, 105491, 124657, 147134, 173330, 203954] := by
    rw [partitionTableAux_succ, t36]; decide
  have t38 : partitionTableAux 50 38 = [1, 1, 2, 3, 5, 7, 11, 15, 22] ++ [30, 42, 56, 77, 101, 135, 176, 231, 297] ++ [385, 490, 627, 792, 1002, 1255, 1575, 1958, 2436] ++ [3010, 3718, 4565, 5604, 6842, 8349, 10143, 12310, 14883] ++ [17977, 21637, 26015, 31184, 37336, 44579, 53167, 63249, 75156] ++ [89104, 105513, 124687, 147176, 173386, 204031] := by
    rw [partitionTableAux_succ, t37]; decide
  have t39 : partitionTableAux 50 39 = [1, 1, 2, 3, 5, 7, 11, 15, 22] ++ [30, 42, 56, 77, 101, 135, 176, 231, 297] ++ [385, 490, 627, 792, 1002, 1255, 1575, 1958, 2436] ++ [3010, 3718, 4565, 5604, 6842, 8349, 10143, 12310, 14883] ++ [17977, 21637, 26015, 31185, 37337, 44581, 53170, 63254, 75163] ++ [89115, 105528, 124709, 147206, 173428, 204087] := by
    rw [partitionTableAux_succ, t38]; decide
  have t40 : partitionTableAux 50 40 = [1, 1, 2, 3, 5, 7, 11, 15, 22] ++ [30, 42, 56, 77, 101, 135, 176, 231, 297] ++ [385, 490, 627, 792, 1002, 1255, 1575, 1958, 2436] ++ [3010, 3718, 4565, 5604, 6842, 8349, 10143, 12310, 14883] ++ [17977, 21637, 26015, 31185, 37338, 44582, 53172, 63257, 75168] ++ [89122, 105539, 124724, 147228, 173458, 204129] := by
    rw [partitionTableAux_succ, t39]; decide
  have t41 : partitionTableAux 50 41 = [1, 1, 2, 3, 5, 7, 11, 15, 22] ++ [30, 42, 56, 77, 101, 135, 176, 231, 297] ++ [385, 490, 627, 792, 1002, 1255, 1575, 1958, 2436] ++ [3010, 3718, 4565, 5604, 6842, 8349, 10143, 12310, 14883] ++ [17977, 21637, 26015, 31185, 37338, 44583, 53173, 63259, 75171] ++ [89127, 105546, 124735, 147243, 173480, 204159] := by
    rw [partitionTableAux_succ, t40]; decide
  have t42 : partitionTableAux 50 42 = [1, 1, 2, 3, 5, 7, 11, 15, 22] ++ [30, 42, 56, 77, 101, 135, 176, 231, 297] ++ [385, 490, 627, 792, 1002, 1255, 1575, 1958, 2436] ++ [3010, 3718, 4565, 5604, 6842, 8349, 10143, 12310, 14883] ++ [17977, 21637, 26015, 31185, 37338, 44583, 53174, 63260, 75173] ++ [89130, 105551, 124742, 147254, 173495, 204181] := by
    rw [partitionTableAux_succ, t41]; decide
  have t43 : partitionTableAux 50 43 = [1, 1, 2, 3, 5, 7, 11, 15, 22] ++ [30, 42, 56, 77, 101, 135, 176, 231, 297] ++ [385, 490, 627, 792, 1002, 1255, 1575, 1958, 2436] ++ [3010, 3718, 4565, 5604, 6842, 8349, 10143, 12310, 14883] ++ [17977, 21637, 26015, 31185, 37338, 44583, 53174, 63261, 75174] ++ [89132, 105554, 124747, 147261, 173506, 204196] := by
    rw [partitionTableAux_succ, t42]; decide
  have t44 : partitionTableAux 50 44 = [1, 1, 2, 3, 5, 7, 11, 15, 22] ++ [30, 42, 56, 77, 101, 135, 176, 231, 297] ++ [385, 490, 627, 792, 1002, 1255, 1575, 1958, 2436] ++ [3010, 3718, 4565, 5604, 6842, 8349, 10143, 12310, 14883] ++ [17977, 21637, 26015, 31185, 37338, 44583, 53174, 63261, 75175] ++ [89133, 105556, 124750, 147266, 173513, 204207] := by
    rw [partitionTableAux_succ, t43]; decide
  have t45 : partitionTableAux 50 45 = [1, 1, 2, 3, 5, 7, 11, 15, 22] ++ [30, 42, 56, 77, 101, 135, 176, 231, 297] ++ [385, 490, 627, 792, 1002, 1255, 1575, 1958, 2436] ++ [3010, 3718, 4565, 5604, 6842, 8349, 10143, 12310, 14883] ++ [17977, 21637, 26015, 31185, 37338, 44583, 53174, 63261, 75175] ++ [89134, 105557, 124752, 147269, 173518, 204214] := by
    rw [partitionTableAux_succ, t44]; decide
  have t46 : partitionTableAux 50 46 = [1, 1, 2, 3, 5, 7, 11, 15, 22] ++ [30, 42, 56, 77, 101, 135, 176, 231, 297] ++ [385, 490, 627, 792, 1002, 1255, 1575, 1958, 2436] ++ [3010, 3718, 4565, 5604, 6842, 8349, 10143, 12310, 14883] ++ [17977, 21637, 26015, 31185, 37338, 44583, 53174, 63261, 75175] ++ [89134, 105558, 124753, 147271, 173521, 204219] := by
    rw [partitionTableAux_succ, t45]; decide
  have t47 : partitionTableAux 50 47 = [1, 1, 2, 3, 5, 7, 11, 15, 22] ++ [30, 42, 56, 77, 101, 135, 176, 231, 297] ++ [385, 490, 627, 792, 1002, 1255, 1575, 1958, 2436] ++ [3010, 3718, 4565, 5604, 6842, 8349, 10143, 12310, 14883] ++ [17977, 21637, 26015, 31185, 37338, 44583, 53174, 63261, 75175] ++ [89134, 105558, 124754, 147272, 173523, 204222] := by
    rw [partitionTableAux_succ, t46]; decide
  have t48 : partitionTableAux 50 48 = [1, 1, 2, 3, 5, 7, 11, 15, 22] ++ [30, 42, 56, 77, 101, 135, 176, 231, 297] ++ [385, 490, 627, 792, 1002, 1255, 1575, 1958, 2436] ++ [3010, 3718, 4565, 5604, 6842, 8349, 10143, 12310, 14883] ++ [17977, 21637, 26015, 31185, 37338, 44583, 53174, 63261, 75175] ++ [89134, 105558, 124754, 147273, 173524, 204224] := by
    rw [partitionTableAux_succ, t47]; decide
  have t49 : partitionTableAux 50 49 = [1, 1, 2, 3, 5, 7, 11, 15, 22] ++ [30, 42, 56, 77, 101, 135, 176, 231, 297] ++ [385, 490, 627, 792, 1002, 1255, 1575, 1958, 2436] ++ [3010, 3718, 4565, 5604, 6842, 8349, 10143, 12310, 14883] ++ [17977, 21637, 26015, 31185, 37338, 44583, 53174, 63261, 75175] ++ [89134, 105558, 124754, 147273, 173525, 204225] := by
    rw [partitionTableAux_succ, t48]; decide
  have t50 : partitionTableAux 50 50 = [1, 1, 2, 3, 5, 7, 11, 15, 22] ++ [30, 42, 56, 77, 101, 135, 176, 231, 297] ++ [385, 490, 627, 792, 1002, 1255, 1575, 1958, 2436] ++ [3010, 3718, 4565, 5604, 6842, 8349, 10143, 12310, 14883] ++ [17977, 21637, 26015, 31185, 37338, 44583, 53174, 63261, 75175] ++ [89134, 105558, 124754, 147273, 173525, 204226] := by
    rw [partitionTableAux_succ, t49]; decide
  exact t50

lemma partList_eq_partitionTable :
    partList 51 = (partitionTable 50).map Int.ofNat := by
  rw [partList_51_eval, partitionTable_50_eval]
  decide

/-- C4: `partition_gf` computed by Euler's pentagonal-number recurrence
reproduces the partition numbers (obtained here by direct counting): at
order 51 the coefficient of `q^n` equals `p(n)` for every `n ≤ 50`, and
`partition_count 50 = 204226`. -/
theorem partition_gf_matches_partition_numbers :
    partition_gf 51 = (partitionTable 50).map Nat.cast ∧
    partition_count 50 = 204226 := by
  constructor
  · unfold partition_gf
    rw [partList_eq_partitionTable, List.map_map]
    exact List.map_congr_left fun m _ => by
      show ((Int.ofNat m : ℤ) : ℚ) = (m : ℚ)
      rfl
  · unfold partition_count
    rw [partList_51_eval]
    decide

/-- C5: for every truncation order `N` and every `k < N`, the coefficient
`theta3(N)[k]` equals 2 if `k > 0` is a perfect square, 1 if `k = 0`, and 0
otherwise. -/
theorem theta3_coeff_spec (N k : ℕ) (hk : k < N) :
    Series.coeff (theta3 N) k
      = if k = 0 then 1 else if Nat.sqrt k * Nat.sqrt k = k then 2 else 0 := by
  unfold theta3
  rw [Series.coeff_map_range _ _ _ hk]
  by_cases h0 : k = 0
  · subst h0
    rw [if_pos rfl]
    have hcong : ∀ n ∈ Finset.Icc (-(Nat.sqrt N : ℤ)) (Nat.sqrt N),
        (if n * n = ((0:ℕ) : ℤ) then (1:ℚ) else 0) = if n = 0 then 1 else 0 := by
      intro n _
      congr 1
      simp [mul_self_eq_zero]
    rw [Finset.sum_congr rfl hcong, Finset.sum_ite_eq' _ (0:ℤ) (fun _ => (1:ℚ)),
        if_pos (by simp [Finset.mem_Icc])]
  · rw [if_neg h0]
    by_cases hsq : Nat.sqrt k * Nat.sqrt k = k
    · rw [if_pos hsq]
      set m := Nat.sqrt k with hm
      have hmpos : 0 < m := by
        rcases Nat.eq_zero_or_pos m with h | h
        · rw [h] at hsq; simp at hsq; omega
        · exact h
      have hmle : (m : ℤ) ≤ (Nat.sqrt N : ℤ) := by
        have : m ≤ Nat.sqrt N := hm ▸ Nat.sqrt_le_sqrt (by omega)
        exact_mod_cast this
      have hsplit : ∀ n ∈ Finset.Icc (-(Nat.sqrt N : ℤ)) (Nat.sqrt N),
          (if n * n = (k : ℤ) then (1:ℚ) else 0)
            = (if n = (m : ℤ) then 1 else 0) + (if n = -(m : ℤ) then 1 else 0) := by
        intro n _
        have hk' : (k : ℤ) = (m : ℤ) * (m : ℤ) := by exact_mod_cast hsq.symm
        have hiff : n * n = (k : ℤ) ↔ n = (m : ℤ) ∨ n = -(m : ℤ) := by
          rw [hk']; exact mul_self_eq_mul_self_iff
        have hne : (m : ℤ) ≠ -(m : ℤ) := by
          intro h; have : (m : ℤ) = 0 := by omega
          simp at this; omega
        by_cases h1 : n = (m : ℤ)
        · rw [if_pos (hiff.mpr (Or.inl h1)), if_pos h1, if_neg (h1 ▸ hne), add_zero]
        · by_cases h2 : n = -(m : ℤ)
          · rw [if_pos (hiff.mpr (Or.inr h2)), if_neg h1, if_pos h2, zero_add]
          · rw [if_neg (fun hc => by rcases hiff.mp hc with h | h; exact h1 h; exact h2 h),
                if_neg h1, if_neg h2, add_zero]
      rw [Finset.sum_congr rfl hsplit, Finset.sum_add_distrib,
          Finset.sum_ite_eq' _ ((m : ℤ)) (fun _ => (1:ℚ)),
          Finset.sum_ite_eq' _ (-(m : ℤ)) (fun _ => (1:ℚ)),
          if_pos (by simp [Finset.mem_Icc]; constructor <;> omega),
          if_pos (by simp [Finset.mem_Icc]; constructor <;> omega)]
      norm_num
    · rw [if_neg hsq]
      refine Finset.sum_eq_zero fun n _ => ?_
      rw [if_neg]
      intro hc
      apply hsq
      have : (n.natAbs : ℤ) * n.natAbs = (k : ℤ) := by
        rw [Int.natAbs_mul_self']; exact hc
      have hj : n.natAbs * n.natAbs = k := by exact_mod_cast this
      exact Nat.exists_mul_self k |>.mp ⟨n.natAbs, hj⟩

/-- Witness for C5 at `N = 12`, `k = 9`. -/
theorem theta3_coeff_spec_witness :
    Series.coeff (theta3 12) 9
      = if 9 = 0 then 1 else if Nat.sqrt 9 * Nat.sqrt 9 = 9 then 2 else 0 :=
  theta3_coeff_spec 12 9 (by decide)

lemma WEq_one (N : ℕ) : WEq N (Series.one N) 1 := by
  refine ⟨by simp [Series.one], fun k hk => ?_⟩
  rw [coeff_one_series N k hk, PowerSeries.coeff_one]

lemma WEq_multiply {N : ℕ} {a b : List ℚ} {φ ψ : PowerSeries ℚ}
    (ha : WEq N a φ) (hb : WEq N b ψ) : WEq N (Series.multiply a b) (φ * ψ) := by
  obtain ⟨hla, hca⟩ := ha
  obtain ⟨hlb, hcb⟩ := hb
  have hmin : min a.length b.length = N := by rw [hla, hlb, min_self]
  refine ⟨by rw [Series.length_multiply, hmin], fun k hk => ?_⟩
  rw [Series.coeff_multiply a b k (by rw [hmin]; exact hk), PowerSeries.coeff_mul,
      Finset.Nat.sum_antidiagonal_eq_sum_range_succ_mk]
  unfold Series.mulCoeff
  refine Finset.sum_congr rfl fun i hi => ?_
  have hi' : i < k + 1 := by simpa using hi
  rw [hca i (by omega), hcb (k - i) (by omega)]

lemma coeff_inv_congr {N : ℕ} {φ ψ : PowerSeries ℚ}
    (h : ∀ i, i < N → PowerSeries.coeff ℚ i φ = PowerSeries.coeff ℚ i ψ) :
    ∀ k, k < N → PowerSeries.coeff ℚ k φ⁻¹ = PowerSeries.coeff ℚ k ψ⁻¹ := by
  intro k
  induction k using Nat.strong_induction_on with
  | _ k ih =>
    intro hk
    have h0 : PowerSeries.constantCoeff ℚ φ = PowerSeries.constantCoeff ℚ ψ := by
      rw [← PowerSeries.coeff_zero_eq_constantCoeff_apply,
          ← PowerSeries.coeff_zero_eq_constantCoeff_apply]
      exact h 0 (by omega)
    match k with
    | 0 =>
      rw [PowerSeries.coeff_inv, PowerSeries.coeff_inv, if_pos rfl, if_pos rfl, h0]
    | n + 1 =>
      rw [PowerSeries.coeff_inv, PowerSeries.coeff_inv, if_neg (Nat.succ_ne_zero n),
          if_neg (Nat.succ_ne_zero n), h0]
      congr 1
      refine Finset.sum_congr rfl fun x hx => ?_
      have hx' : x.1 + x.2 = n + 1 := Finset.mem_antidiagonal.mp hx
      by_cases hlt : x.2 < n + 1
      · rw [if_pos hlt, if_pos hlt, h x.1 (by omega), ih x.2 (by omega) (by omega)]
      · rw [if_neg hlt, if_neg hlt]

lemma WEq_invertTotal {N : ℕ} {a : List ℚ} {φ : PowerSeries ℚ}
    (ha : WEq N a φ) (hN : 0 < N) (h0 : PowerSeries.constantCoeff ℚ φ ≠ 0) :
    WEq N (Series.invertTotal a) φ⁻¹ := by
  obtain ⟨hla, hca⟩ := ha
  have ha0 : Series.coeff a 0 ≠ 0 := by
    rw [hca 0 hN, PowerSeries.coeff_zero_eq_constantCoeff_apply]
    exact h0
  refine ⟨by rw [Series.length_invertTotal, hla], fun k hk => ?_⟩
  rw [coeff_invertTotal_toPS a (by rw [hla]; exact hk)]
  exact coeff_inv_congr (fun i hi => by rw [coeff_toPS, hca i hi]) k hk

lemma WEq_pochFactor (N e : ℕ) (he : 1 ≤ e) :
    WEq N (pochFactor N e) (1 - PowerSeries.X ^ e) := by
  refine ⟨by simp [pochFactor], fun k hk => ?_⟩
  unfold pochFactor
  rw [Series.coeff_map_range _ _ _ hk, map_sub, PowerSeries.coeff_one,
      PowerSeries.coeff_X_pow]
  by_cases h0 : k = 0
  · subst h0
    rw [if_pos rfl, if_pos rfl, if_neg (by omega)]
    norm_num
  · rw [if_neg h0, if_neg h0]
    by_cases hke : k = e
    · rw [if_pos hke, if_pos hke]
      norm_num
    · rw [if_neg hke, if_neg hke]
      norm_num

lemma WEq_distinctFactor (N e : ℕ) (he : 1 ≤ e) :
    WEq N (distinctFactor N e) (1 + PowerSeries.X ^ e) := by
  refine ⟨by simp [distinctFactor], fun k hk => ?_⟩
  unfold distinctFactor
  rw [Series.coeff_map_range _ _ _ hk, map_add, PowerSeries.coeff_one,
      PowerSeries.coeff_X_pow]
  by_cases h0 : k = 0
  · subst h0
    rw [if_pos rfl, if_pos rfl, if_neg (by omega)]
    norm_num
  · rw [if_neg h0, if_neg h0]
    by_cases hke : k = e
    · rw [if_pos hke]
      norm_num
    · rw [if_neg hke]
      norm_num

lemma WEq_prodSeries (N : ℕ) (F : ℕ → List ℚ) (G : ℕ → PowerSeries ℚ) (m : ℕ)
    (h : ∀ j, j < m → WEq N (F j) (G j)) :
    WEq N (Series.prodSeries N ((List.range m).map F)) (∏ j ∈ Finset.range m, G j) := by
  induction m with
  | zero => simpa [Series.prodSeries] using WEq_one N
  | succ m ih =>
    rw [List.range_succ, List.map_append, Finset.prod_range_succ]
    unfold Series.prodSeries at ih ⊢
    rw [List.foldl_append]
    simp only [List.map_cons, List.map_nil, List.foldl_cons, List.foldl_nil]
    exact WEq_multiply (ih (fun j hj => h j (by omega))) (h m (by omega))

lemma coeff_mul_windowOne {N : ℕ} {A B : PowerSeries ℚ}
    (hA : ∀ k, k < N → PowerSeries.coeff ℚ k A = if k = 0 then 1 else 0) :
    ∀ k, k < N → PowerSeries.coeff ℚ k (A * B) = PowerSeries.coeff ℚ k B := by
  intro k hk
  rw [PowerSeries.coeff_mul, Finset.Nat.sum_antidiagonal_eq_sum_range_succ_mk]
  have hterm : ∀ i ∈ Finset.range (k + 1),
      PowerSeries.coeff ℚ i A * PowerSeries.coeff ℚ (k - i) B
        = if i = 0 then PowerSeries.coeff ℚ (k - i) B else 0 := by
    intro i hi
    have hi' : i < k + 1 := by simpa using hi
    rw [hA i (by omega)]
    by_cases h0 : i = 0
    · rw [if_pos h0, if_pos h0, one_mul]
    · rw [if_neg h0, if_neg h0, zero_mul]
  rw [Finset.sum_congr rfl hterm, Finset.sum_ite_eq' (Finset.range (k + 1)) 0,
      if_pos (by simp)]
  rw [Nat.sub_zero]

lemma coeff_prod_windowOne {N : ℕ} (s : Finset ℕ) (f : ℕ → PowerSeries ℚ)
    (h : ∀ n ∈ s, ∀ k, k < N →
      PowerSeries.coeff ℚ k (f n) = if k = 0 then 1 else 0) :
    ∀ k, k < N → PowerSeries.coeff ℚ k (∏ n ∈ s, f n) = if k = 0 then 1 else 0 := by
  induction s using Finset.induction_on with
  | empty =>
    intro k hk
    rw [Finset.prod_empty, PowerSeries.coeff_one]
  | @insert a s' ha ih =>
    intro k hk
    rw [Finset.prod_insert ha,
        coeff_mul_windowOne (h a (Finset.mem_insert_self a s')) k hk]
    exact ih (fun n hn => h n (Finset.mem_insert_of_mem hn)) k hk

lemma constantCoeff_prod_one_sub_X_pow (s : Finset ℕ) (hs : ∀ n ∈ s, 1 ≤ n) :
    PowerSeries.constantCoeff ℚ (∏ n ∈ s, (1 - PowerSeries.X ^ n)) = 1 := by
  rw [map_prod]
  refine Finset.prod_eq_one fun n hn => ?_
  rw [map_sub, map_one, map_pow, PowerSeries.constantCoeff_X,
      zero_pow (by have := hs n hn; omega), sub_zero]

lemma distinct_odd_powerSeries (N k : ℕ) (hk : k < N) :
    PowerSeries.coeff ℚ k (∏ n ∈ Finset.Ico 1 N, (1 + PowerSeries.X ^ n))
      = PowerSeries.coeff ℚ k
          ((∏ n ∈ (Finset.Ico 1 N).filter (fun n => n % 2 = 1),
              (1 - PowerSeries.X ^ n))⁻¹) := by
  have hN : 0 < N := by omega
  set D : PowerSeries ℚ := ∏ n ∈ Finset.Ico 1 N, (1 + PowerSeries.X ^ n) with hD
  set O : PowerSeries ℚ := ∏ n ∈ (Finset.Ico 1 N).filter (fun n => n % 2 = 1),
      (1 - PowerSeries.X ^ n) with hO
  set E : PowerSeries ℚ := ∏ n ∈ (Finset.Ico 1 N).filter (fun n => ¬n % 2 = 1),
      (1 - PowerSeries.X ^ n) with hE
  set T := (N + 1) / 2 with hT
  set R : PowerSeries ℚ := ∏ j ∈ Finset.Ico T N, (1 - PowerSeries.X ^ (2 * j)) with hR
  have hDA : D * ∏ n ∈ Finset.Ico 1 N, (1 - PowerSeries.X ^ n)
      = ∏ n ∈ Finset.Ico 1 N, (1 - PowerSeries.X ^ (2 * n)) := by
    rw [hD, ← Finset.prod_mul_distrib]
    refine Finset.prod_congr rfl fun n _ => ?_
    have h2 : (PowerSeries.X : PowerSeries ℚ) ^ n * PowerSeries.X ^ n
        = PowerSeries.X ^ (2 * n) := by
      rw [← pow_add, two_mul]
    have h3 : ∀ x : PowerSeries ℚ, (1 + x) * (1 - x) = 1 - x * x := fun x => by ring
    rw [h3, h2]
  have hAOE : ∏ n ∈ Finset.Ico 1 N, (1 - PowerSeries.X ^ n) = O * E :=
    (Finset.prod_filter_mul_prod_filter_not (Finset.Ico 1 N) _ _).symm
  have hEeq : E = ∏ j ∈ Finset.Ico 1 T, (1 - PowerSeries.X ^ (2 * j)) := by
    rw [hE]
    refine Finset.prod_nbij' (fun n => n / 2) (fun j => 2 * j) ?_ ?_ ?_ ?_ ?_
    · intro a ha
      simp only [Finset.mem_filter, Finset.mem_Ico] at ha
      simp only [Finset.mem_Ico]
      show 1 ≤ a / 2 ∧ a / 2 < (N + 1) / 2
      omega
    · intro a ha
      simp only [Finset.mem_Ico] at ha
      simp only [Finset.mem_filter, Finset.mem_Ico]
      show (1 ≤ 2 * a ∧ 2 * a < N) ∧ ¬2 * a % 2 = 1
      omega
    · intro a ha
      simp only [Finset.mem_filter, Finset.mem_Ico] at ha
      show 2 * (a / 2) = a
      omega
    · intro a ha
      simp only [Finset.mem_Ico] at ha
      show 2 * a / 2 = a
      omega
    · intro a ha
      simp only [Finset.mem_filter, Finset.mem_Ico] at ha
      have hev : 2 * (a / 2) = a := by omega
      show (1 : PowerSeries ℚ) - PowerSeries.X ^ a = 1 - PowerSeries.X ^ (2 * (a / 2))
      rw [hev]
  have hsplit : (∏ j ∈ Finset.Ico 1 T, (1 - PowerSeries.X ^ (2 * j))) * R
      = ∏ j ∈ Finset.Ico 1 N, (1 - PowerSeries.X ^ (2 * j)) := by
    rw [hR]
    exact Finset.prod_Ico_consecutive _ (by omega) (by omega)
  have hE1 : PowerSeries.constantCoeff ℚ E = 1 := by
    rw [hE]
    refine constantCoeff_prod_one_sub_X_pow _ fun n hn => ?_
    simp only [Finset.mem_filter, Finset.mem_Ico] at hn
    omega
  have hE0 : E ≠ 0 := by
    intro hzero
    rw [hzero, map_zero] at hE1
    exact zero_ne_one hE1
  have hDO : D * O = R := by
    have key : E * (D * O) = E * R := by
      calc E * (D * O) = D * (O * E) := by ring
        _ = ∏ n ∈ Finset.Ico 1 N, (1 - PowerSeries.X ^ (2 * n)) := by
            rw [← hDA, hAOE]
        _ = (∏ j ∈ Finset.Ico 1 T, (1 - PowerSeries.X ^ (2 * j))) * R := hsplit.symm
        _ = E * R := by rw [hEeq]
    exact mul_left_cancel₀ hE0 key
  have hO1 : PowerSeries.constantCoeff ℚ O = 1 := by
    rw [hO]
    refine constantCoeff_prod_one_sub_X_pow _ fun n hn => ?_
    simp only [Finset.mem_filter, Finset.mem_Ico] at hn
    omega
  have hO0 : PowerSeries.constantCoeff ℚ O ≠ 0 := by
    rw [hO1]
    exact one_ne_zero
  have hDfinal : D = R * O⁻¹ := by
    calc D = D * (O * O⁻¹) := by rw [PowerSeries.mul_inv_cancel _ hO0, mul_one]
      _ = D * O * O⁻¹ := by ring
      _ = R * O⁻¹ := by rw [hDO]
  have hRone : ∀ j, j < N → PowerSeries.coeff ℚ j R = if j = 0 then 1 else 0 := by
    refine coeff_prod_windowOne _ _ fun n hn j hj => ?_
    simp only [Finset.mem_Ico] at hn
    rw [map_sub, PowerSeries.coeff_one, PowerSeries.coeff_X_pow,
        if_neg (by omega : ¬j = 2 * n), sub_zero]
  rw [hDfinal, coeff_mul_windowOne hRone k hk]

/-- C6: for every truncation order `N` and every `k < N`,
`distinct_parts_gf(N)[k] = odd_parts_gf(N)[k]` (Euler's distinct-equals-odd
partition theorem, coefficient-wise within the truncation window). -/
theorem distinct_parts_eq_odd_parts (N k : ℕ) (hk : k < N) :
    Series.coeff (distinct_parts_gf N) k = Series.coeff (odd_parts_gf N) k := by
  have hN : 0 < N := by omega
  have hD : WEq N (distinct_parts_gf N)
      (∏ j ∈ Finset.range N, if 0 < j then 1 + PowerSeries.X ^ j else 1) := by
    unfold distinct_parts_gf
    refine WEq_prodSeries N _ _ N fun j hj => ?_
    by_cases h : 0 < j
    · simp only [if_pos h]
      exact WEq_distinctFactor N j h
    · simp only [if_neg h]
      exact WEq_one N
  have hDconv : (∏ j ∈ Finset.range N,
        if 0 < j then (1 : PowerSeries ℚ) + PowerSeries.X ^ j else 1)
      = ∏ n ∈ Finset.Ico 1 N, (1 + PowerSeries.X ^ n) := by
    rw [← Finset.prod_filter]
    congr 1
    ext j
    simp only [Finset.mem_filter, Finset.mem_range, Finset.mem_Ico]
    omega
  have hOlist : WEq N
      (Series.prodSeries N ((List.range N).map
        (fun n => if n % 2 = 1 then pochFactor N n else Series.one N)))
      (∏ j ∈ Finset.range N, if j % 2 = 1 then 1 - PowerSeries.X ^ j else 1) := by
    refine WEq_prodSeries N _ _ N fun j hj => ?_
    by_cases h : j % 2 = 1
    · simp only [if_pos h]
      exact WEq_pochFactor N j (by omega)
    · simp only [if_neg h]
      exact WEq_one N
  have hOconv : (∏ j ∈ Finset.range N,
        if j % 2 = 1 then (1 : PowerSeries ℚ) - PowerSeries.X ^ j else 1)
      = ∏ n ∈ (Finset.Ico 1 N).filter (fun n => n % 2 = 1),
          (1 - PowerSeries.X ^ n) := by
    rw [← Finset.prod_filter]
    congr 1
    ext j
    simp only [Finset.mem_filter, Finset.mem_range, Finset.mem_Ico]
    omega
  have hO : WEq N (odd_parts_gf N)
      ((∏ n ∈ (Finset.Ico 1 N).filter (fun n => n % 2 = 1),
          (1 - PowerSeries.X ^ n))⁻¹) := by
    unfold odd_parts_gf
    refine WEq_invertTotal ?_ hN ?_
    · rw [← hOconv]
      exact hOlist
    · rw [constantCoeff_prod_one_sub_X_pow _ fun n hn => ?_]
      · exact one_ne_zero
      · simp only [Finset.mem_filter, Finset.mem_Ico] at hn
        omega
  rw [hD.2 k hk, hDconv, hO.2 k hk]
  exact distinct_odd_powerSeries N k hk

/-- Witness for C6 at `N = 6`, `k = 5`. -/
theorem distinct_parts_eq_odd_parts_witness :
    Series.coeff (distinct_parts_gf 6) 5 = Series.coeff (odd_parts_gf 6) 5 :=
  distinct_parts_eq_odd_parts 6 5 (by decide)

lemma descPoch_negOne (j : ℕ) : descPoch (-1) j = (-1) ^ j * (Nat.factorial j : ℚ) := by
  induction j with
  | zero => simp [descPoch]
  | succ j ih =>
    rw [descPoch, ih, Nat.factorial_succ, pow_succ]
    push_cast
    ring

lemma ratBinom_negOne (j : ℕ) : ratBinom (-1) j = (-1) ^ j := by
  rw [ratBinom, descPoch_negOne, mul_div_assoc, div_self, mul_one]
  exact_mod_cast Nat.factorial_ne_zero j

lemma WEq_ratPow_negOne (N n : ℕ) :
    WEq N (ratPow N n (-1))
      (PowerSeries.mk (fun k => if n ∣ k then (1 : ℚ) else 0)) := by
  refine ⟨by simp [ratPow], fun k hk => ?_⟩
  unfold ratPow
  rw [Series.coeff_map_range _ _ _ hk, PowerSeries.coeff_mk]
  by_cases hdvd : n ∣ k
  · rw [if_pos hdvd, if_pos hdvd, ratBinom_negOne, ← mul_pow]
    norm_num
  · rw [if_neg hdvd, if_neg hdvd]

lemma one_sub_X_pow_mul_geom (n : ℕ) (hn : 1 ≤ n) :
    (1 - PowerSeries.X ^ n) * PowerSeries.mk (fun k => if n ∣ k then (1 : ℚ) else 0)
      = 1 := by
  ext k
  rw [sub_mul, one_mul, map_sub, PowerSeries.coeff_X_pow_mul',
      PowerSeries.coeff_mk, PowerSeries.coeff_one]
  by_cases h0 : k = 0
  · subst h0
    rw [if_pos (dvd_zero n), if_neg (by omega), if_pos rfl]
    norm_num
  · rw [if_neg h0]
    by_cases hnk : n ≤ k
    · rw [if_pos hnk, PowerSeries.coeff_mk]
      have hiff : n ∣ k ↔ n ∣ k - n := by
        constructor
        · intro h
          exact (Nat.dvd_sub' h dvd_rfl)
        · intro h
          have := Nat.dvd_add h (dvd_refl n)
          rwa [Nat.sub_add_cancel hnk] at this
      by_cases hd : n ∣ k
      · rw [if_pos hd, if_pos (hiff.mp hd), sub_self]
      · rw [if_neg hd, if_neg (fun hc => hd (hiff.mpr hc)), sub_self]
    · rw [if_neg hnk, sub_zero]
      rw [if_neg (fun hd => hnk (Nat.le_of_dvd (by omega) hd))]

lemma coeff_Ico_prod_one_sub (N : ℕ) :
    ∀ d n, N - n = d → 1 ≤ n →
      (∀ k, k < n →
        PowerSeries.coeff ℚ k (∏ m ∈ Finset.Ico n N, (1 - PowerSeries.X ^ m))
          = if k = 0 then 1 else 0) ∧
      (n < N →
        PowerSeries.coeff ℚ n (∏ m ∈ Finset.Ico n N, (1 - PowerSeries.X ^ m))
          = -1) := by
  intro d
  induction d with
  | zero =>
    intro n hd hn
    have hIco : Finset.Ico n N = ∅ := by
      rw [Finset.Ico_eq_empty_iff]
      omega
    rw [hIco]
    refine ⟨fun k hk => ?_, fun hlt => by omega⟩
    rw [Finset.prod_empty, PowerSeries.coeff_one]
  | succ d ih =>
    intro n hd hn
    have hnN : n < N := by omega
    obtain ⟨ih1, ih2⟩ := ih (n + 1) (by omega) (by omega)
    rw [Finset.prod_eq_prod_Ico_succ_bot hnN]
    have hco : ∀ j, PowerSeries.coeff ℚ j
        ((1 - PowerSeries.X ^ n) *
          ∏ m ∈ Finset.Ico (n + 1) N, (1 - PowerSeries.X ^ m))
        = PowerSeries.coeff ℚ j (∏ m ∈ Finset.Ico (n + 1) N, (1 - PowerSeries.X ^ m))
          - (if n ≤ j then
              PowerSeries.coeff ℚ (j - n)
                (∏ m ∈ Finset.Ico (n + 1) N, (1 - PowerSeries.X ^ m))
             else 0) := by
      intro j
      rw [sub_mul, one_mul, map_sub, mul_comm, PowerSeries.coeff_mul_X_pow']
    constructor
    · intro k hk
      rw [hco k, ih1 k (by omega), if_neg (show ¬n ≤ k by omega), sub_zero]
    · intro _
      rw [hco n, ih1 n (by omega), if_neg (show ¬n = 0 by omega), if_pos le_rfl,
          Nat.sub_self, ih1 0 (by omega), if_pos rfl]
      norm_num

lemma prodmakeAux_succ_fst (res : List ℚ) (n steps : ℕ) :
    (prodmakeAux res n (steps + 1)).1
      = Series.coeff res n ::
        (prodmakeAux (Series.multiply res (ratPow res.length n (Series.coeff res n)))
          (n + 1) steps).1 := rfl

lemma prodmakeAux_exponents (N : ℕ) :
    ∀ steps n res, 1 ≤ n → n + steps ≤ N →
      WEq N res (∏ m ∈ Finset.Ico n N, (1 - PowerSeries.X ^ m)) →
      (prodmakeAux res n steps).1 = List.replicate steps (-1) := by
  intro steps
  induction steps with
  | zero =>
    intro n res _ _ _
    rfl
  | succ steps ih =>
    intro n res hn hle hres
    have hnN : n < N := by omega
    have ha : Series.coeff res n = -1 := by
      rw [hres.2 n hnN]
      exact (coeff_Ico_prod_one_sub N (N - n) n rfl hn).2 hnN
    have hlen : res.length = N := hres.1
    rw [prodmakeAux_succ_fst, ha, hlen, List.replicate_succ]
    congr 1
    have hPG : (∏ m ∈ Finset.Ico n N, (1 - PowerSeries.X ^ m)) *
        PowerSeries.mk (fun k => if n ∣ k then (1 : ℚ) else 0)
        = ∏ m ∈ Finset.Ico (n + 1) N, (1 - PowerSeries.X ^ m) := by
      rw [Finset.prod_eq_prod_Ico_succ_bot hnN]
      calc ((1 - PowerSeries.X ^ n) *
            ∏ m ∈ Finset.Ico (n + 1) N, (1 - PowerSeries.X ^ m)) *
            PowerSeries.mk (fun k => if n ∣ k then (1 : ℚ) else 0)
          = ((1 - PowerSeries.X ^ n) *
              PowerSeries.mk (fun k => if n ∣ k then (1 : ℚ) else 0)) *
            ∏ m ∈ Finset.Ico (n + 1) N, (1 - PowerSeries.X ^ m) := by ring
        _ = 1 * ∏ m ∈ Finset.Ico (n + 1) N, (1 - PowerSeries.X ^ m) := by
            rw [one_sub_X_pow_mul_geom n hn]
        _ = ∏ m ∈ Finset.Ico (n + 1) N, (1 - PowerSeries.X ^ m) := one_mul _
    have hres2 : WEq N (Series.multiply res (ratPow N n (-1)))
        (∏ m ∈ Finset.Ico (n + 1) N, (1 - PowerSeries.X ^ m)) := by
      rw [← hPG]
      exact WEq_multiply hres (WEq_ratPow_negOne N n)
    exact ih (n + 1) _ (by omega) (by omega) hres2

lemma WEq_etaq_one_one (N : ℕ) :
    WEq N (etaq 1 1 N) (∏ m ∈ Finset.Ico 1 N, (1 - PowerSeries.X ^ m)) := by
  have h1 : WEq N (etaq 1 1 N)
      (∏ j ∈ Finset.range N,
        if 1 + j * 1 < N then 1 - PowerSeries.X ^ (1 + j * 1) else 1) := by
    unfold etaq
    refine WEq_prodSeries N _ _ N fun j hj => ?_
    by_cases h : 1 + j * 1 < N
    · simp only [if_pos h]
      exact WEq_pochFactor N (1 + j * 1) (by omega)
    · simp only [if_neg h]
      exact WEq_one N
  have h2 : (∏ j ∈ Finset.range N,
        if 1 + j * 1 < N then (1 : PowerSeries ℚ) - PowerSeries.X ^ (1 + j * 1) else 1)
      = ∏ m ∈ Finset.Ico 1 N, (1 - PowerSeries.X ^ m) := by
    rw [← Finset.prod_filter]
    have hfil : (Finset.range N).filter (fun j => 1 + j * 1 < N)
        = Finset.range (N - 1) := by
      ext j
      simp only [Finset.mem_filter, Finset.mem_range]
      omega
    rw [hfil, Finset.prod_Ico_eq_prod_range]
    refine Finset.prod_congr rfl fun i _ => ?_
    rw [mul_one]
  rw [h2] at h1
  exact h1

lemma coeff_etaq_one_one_zero (N : ℕ) (hN : 0 < N) :
    Series.coeff (etaq 1 1 N) 0 = 1 := by
  rw [(WEq_etaq_one_one N).2 0 hN, PowerSeries.coeff_zero_eq_constantCoeff_apply,
      constantCoeff_prod_one_sub_X_pow]
  intro n hn
  simp only [Finset.mem_Ico] at hn
  omega

/-- C7: `prodmake` applied with depth `M` to `etaq(1,1,order)` (the Euler
product `(q;q)_∞`) succeeds and recovers exponent `a_n = -1` for every
`n ∈ [1, M]`, whenever `M < order`. -/
theorem prodmake_etaq_recovers_exponents (N M : ℕ) (hM : M < N) :
    ∃ exps res, prodmake (etaq 1 1 N) M = some (exps, res) ∧
      ∀ n, 1 ≤ n → n ≤ M → exps.getD (n - 1) 0 = -1 := by
  have hN : 0 < N := by omega
  refine ⟨(prodmakeAux (etaq 1 1 N) 1 M).1, (prodmakeAux (etaq 1 1 N) 1 M).2, ?_, ?_⟩
  · unfold prodmake
    rw [if_pos (coeff_etaq_one_one_zero N hN)]
  · intro n h1 h2
    have hexp : (prodmakeAux (etaq 1 1 N) 1 M).1 = List.replicate M (-1) :=
      prodmakeAux_exponents N M 1 (etaq 1 1 N) le_rfl (by omega) (WEq_etaq_one_one N)
    rw [hexp, List.getD_eq_getElem _ _ (by simp; omega)]
    simp

/-- Witness for C7 at `order = 6`, `M = 3`. -/
theorem prodmake_etaq_recovers_exponents_witness :
    ∃ exps res, prodmake (etaq 1 1 6) 3 = some (exps, res) ∧
      ∀ n, 1 ≤ n → n ≤ 3 → exps.getD (n - 1) 0 = -1 :=
  prodmake_etaq_recovers_exponents 6 3 (by decide)

/-- C8: for every supported generator name, parameter sequence and order,
`batch_generate` returns one result per input tuple in input order, and
each result — as well as the single-call `generate` — is equal to the
direct generator call with the same parameters and order. -/
theorem batch_generate_pure_orchestration (name : String) (g : List ℤ → ℕ → List ℚ)
    (hname : lookupGenerator name = some g) (ps : List (List ℤ)) (order : ℕ)
    (p : List ℤ) :
    (batch_generate g ps order).length = ps.length ∧
    List.Forall₂ (fun par r => r = (par, g par order)) ps (batch_generate g ps order) ∧
    generate g p order = g p order := by
  refine ⟨List.length_map .., ?_, rfl⟩
  induction ps with
  | nil => exact List.Forall₂.nil
  | cons a l ih => exact List.Forall₂.cons rfl ih

/-- Witness for C8: the `etaq` generator over a two-tuple scan at order 5. -/
theorem batch_generate_pure_orchestration_witness :
    (batch_generate etaqGen [[1, 1], [2, 1]] 5).length = 2 ∧
    List.Forall₂ (fun par r => r = (par, etaqGen par 5)) [[1, 1], [2, 1]]
      (batch_generate etaqGen [[1, 1], [2, 1]] 5) ∧
    generate etaqGen [3, 1] 5 = etaqGen [3, 1] 5 :=
  batch_generate_pure_orchestration "etaq" etaqGen rfl [[1, 1], [2, 1]] 5 [3, 1]

lemma idxOfNode_lt (n : Node) :
    ∀ (s : List Node) (i : ℕ), idxOfNode n s = some i → i < s.length := by
  intro s
  induction s with
  | nil => intro i h; simp [idxOfNode] at h
  | cons m rest ih =>
    intro i h
    unfold idxOfNode at h
    by_cases hm : m = n
    · rw [if_pos hm] at h
      simp at h
      simp [← h]
    · rw [if_neg hm] at h
      rcases Option.map_eq_some'.mp h with ⟨j, hj, rfl⟩
      have := ih j hj
      simp
      omega

lemma idxOfNode_getD (n : Node) :
    ∀ (s : List Node) (i : ℕ), idxOfNode n s = some i →
      s.getD i (Node.Symbol "") = n := by
  intro s
  induction s with
  | nil => intro i h; simp [idxOfNode] at h
  | cons m rest ih =>
    intro i h
    unfold idxOfNode at h
    by_cases hm : m = n
    · rw [if_pos hm] at h
      simp at h
      simp [← h, hm]
    · rw [if_neg hm] at h
      rcases Option.map_eq_some'.mp h with ⟨j, hj, rfl⟩
      simpa using ih j hj

lemma idxOfNode_append_self (n : Node) :
    ∀ s : List Node, idxOfNode n s = none →
      idxOfNode n (s ++ [n]) = some s.length := by
  intro s
  induction s with
  | nil => intro _; simp [idxOfNode]
  | cons m rest ih =>
    intro h
    unfold idxOfNode at h
    by_cases hm : m = n
    · rw [if_pos hm] at h
      simp at h
    · rw [if_neg hm] at h
      show idxOfNode n (m :: (rest ++ [n])) = _
      unfold idxOfNode
      rw [if_neg hm, ih (by simpa using h)]
      simp

lemma intern_resolves (n : Node) (s : List Node) :
    ((intern n s).2).getD ((intern n s).1) (Node.Symbol "") = n := by
  unfold intern
  cases h : idxOfNode n s with
  | some i => exact idxOfNode_getD n s i h
  | none =>
    show (s ++ [n]).getD s.length (Node.Symbol "") = n
    rw [List.getD_append_right _ _ _ _ le_rfl]
    simp

lemma intern_extends (n : Node) (s : List Node) :
    (intern n s).2 = s ∨ (intern n s).2 = s ++ [n] := by
  unfold intern
  cases h : idxOfNode n s with
  | some i => exact Or.inl rfl
  | none => exact Or.inr rfl

lemma intern_lt_length (n : Node) (s : List Node) :
    (intern n s).1 < ((intern n s).2).length := by
  unfold intern
  cases h : idxOfNode n s with
  | some i => exact idxOfNode_lt n s i h
  | none => simp

/-- C9: hash-consing invariant of the ExprStore — interning a structurally
identical node a second time yields the same stable id and leaves the
store unchanged, and the id resolves to that node in the store. -/
theorem intern_hash_consing (n : Node) (s : List Node) :
    (intern n ((intern n s).2)).1 = (intern n s).1 ∧
    (intern n ((intern n s).2)).2 = (intern n s).2 ∧
    ((intern n s).2).getD ((intern n s).1) (Node.Symbol "") = n := by
  refine ⟨?_, ?_, intern_resolves n s⟩ <;>
  · unfold intern
    cases h : idxOfNode n s with
    | some i => rw [h]
    | none => rw [idxOfNode_append_self n s h]

lemma internSymbols_fold_spec :
    ∀ (l : List String) (acc : List ℕ × List Node),
      (∃ ext, (l.foldl internSymbolsStep acc).2 = acc.2 ++ ext) ∧
      (l.foldl internSymbolsStep acc).1.length = acc.1.length + l.length ∧
      (∀ i, i < acc.1.length →
        (l.foldl internSymbolsStep acc).1.getD i 0 = acc.1.getD i 0) ∧
      (∀ j, j < l.length →
        ((l.foldl internSymbolsStep acc).2).getD
            ((l.foldl internSymbolsStep acc).1.getD (acc.1.length + j) 0)
            (Node.Symbol "")
          = Node.Symbol (l.getD j "")) := by
  intro l
  induction l with
  | nil =>
    intro acc
    exact ⟨⟨[], by simp⟩, by simp, fun i _ => rfl, fun j hj => by simp at hj⟩
  | cons nm rest ih =>
    intro acc
    rw [List.foldl_cons]
    obtain ⟨⟨ext, hext⟩, hlen, hpre, hres⟩ := ih (internSymbolsStep acc nm)
    have hstep2 : (internSymbolsStep acc nm).2 = (intern (Node.Symbol nm) acc.2).2 := rfl
    have hstep1 : (internSymbolsStep acc nm).1
        = acc.1 ++ [(intern (Node.Symbol nm) acc.2).1] := rfl
    have hstep1len : (internSymbolsStep acc nm).1.length = acc.1.length + 1 := by
      rw [hstep1]
      simp
    refine ⟨?_, ?_, ?_, ?_⟩
    · rcases intern_extends (Node.Symbol nm) acc.2 with h | h
      · exact ⟨ext, by rw [hext, hstep2, h]⟩
      · exact ⟨[Node.Symbol nm] ++ ext, by rw [hext, hstep2, h, List.append_assoc]⟩
    · rw [hlen, hstep1len, List.length_cons]
      omega
    · intro i hi
      rw [hpre i (by omega), hstep1, List.getD_append _ _ _ _ (by omega)]
    · intro j hj
      cases j with
      | zero =>
        have hget : (rest.foldl internSymbolsStep (internSymbolsStep acc nm)).1.getD
            (acc.1.length + 0) 0 = (intern (Node.Symbol nm) acc.2).1 := by
          rw [hpre (acc.1.length + 0) (by omega), hstep1, Nat.add_zero,
              List.getD_append_right _ _ _ _ le_rfl, Nat.sub_self]
          rfl
        rw [hget, hext, hstep2,
            List.getD_append _ _ _ _ (intern_lt_length (Node.Symbol nm) acc.2)]
        exact intern_resolves (Node.Symbol nm) acc.2
      | succ j' =>
        have := hres j' (by simp only [List.length_cons] at hj; omega)
        rw [hstep1len] at this
        rw [show acc.1.length + (j' + 1) = acc.1.length + 1 + j' by omega]
        exact this

/-- C10: the binding-layer helper `symbols(names, session=None)` uses a
fresh QSession when none is given; for exactly one name it returns a
single QExpr (not a one-element tuple), and for two or more names a tuple
of QExpr in name order. -/
theorem symbols_helper_shape (names : String) (session : Option QSession) :
    symbols names none = symbols names (some QSession.empty) ∧
    ((parseNames names).length = 1 →
      ∃ e, (symbols names session).1 = SymbolsResult.single e ∧
        ((symbols names session).2).store.getD e (Node.Symbol "")
          = Node.Symbol ((parseNames names).getD 0 "")) ∧
    (2 ≤ (parseNames names).length →
      ∃ es, (symbols names session).1 = SymbolsResult.tuple es ∧
        es.length = (parseNames names).length ∧
        ∀ j, j < (parseNames names).length →
          ((symbols names session).2).store.getD (es.getD j 0) (Node.Symbol "")
            = Node.Symbol ((parseNames names).getD j "")) := by
  obtain ⟨⟨ext, hext⟩, hlen, hpre, hres⟩ :=
    internSymbols_fold_spec (parseNames names) ([], (sessionOrFresh session).store)
  have hlen' : ((sessionOrFresh session).symbols names).1.length
      = (parseNames names).length := by
    show ((parseNames names).foldl internSymbolsStep
        ([], (sessionOrFresh session).store)).1.length = _
    rw [hlen]
    simp
  refine ⟨rfl, ?_, ?_⟩
  · intro h1
    refine ⟨((sessionOrFresh session).symbols names).1.getD 0 0, ?_, ?_⟩
    · show (if ((sessionOrFresh session).symbols names).1.length = 1 then _ else _) = _
      rw [if_pos (by rw [hlen', h1])]
    · have := hres 0 (by omega)
      simpa using this
  · intro h2
    refine ⟨((sessionOrFresh session).symbols names).1, ?_, hlen', ?_⟩
    · show (if ((sessionOrFresh session).symbols names).1.length = 1 then _ else _) = _
      rw [if_neg (by rw [hlen']; omega)]
    · intro j hj
      have := hres j hj
      simpa using this

/-- Witness for C10 at `names = "q a"` (two names) with no session given. -/
theorem symbols_helper_shape_witness :
    ∃ es, (symbols "q a" none).1 = SymbolsResult.tuple es ∧
      es.length = (parseNames "q a").length ∧
      ∀ j, j < (parseNames "q a").length →
        ((symbols "q a" none).2).store.getD (es.getD j 0) (Node.Symbol "")
          = Node.Symbol ((parseNames "q a").getD j "") :=
  (symbols_helper_shape "q a" none).2.2 (by decide)
